import Mathlib

/-! # XG24 BLE key/mouse firmware: the button-gesture-to-report state machine

A shallow embedding of `app.c`: the button event group written by
`sl_button_on_change`, the polling loop body of `km_btn_task`, the one-shot
timer callback `btn_press_timer_cb`, and the Bluetooth event handler
`sl_bt_on_event` with the HID report builders it calls.

Conventions of the embedding.

* The file-scope variables of `app.c` and the two locals of `km_btn_task`
  that live across loop iterations (`is_running`, `btn_press_timer`) are the
  fields of one record, `KmState`, passed explicitly.
* Calls into the Bluetooth stack, FreeRTOS and the LED driver are recorded in
  log fields of the record (`sent`, `signals`, `led0_toggles`, ...).
* `app_assert_status` halts the firmware on a failing status, so every stack
  call that is followed by it is taken to succeed.  The event-group calls made
  from interrupt context are only logged on failure; their result is an
  explicit argument.
* Time is discrete, in milliseconds.  The one-shot timer is the number of
  milliseconds left until it fires, or `none` when it is stopped.
-/

namespace KeyMouse

/-! ## Constants of `app.c` -/

def REPORT_ID_INDEX : Nat := 0
def KB_REPORT_ID : Nat := 0x01
def MOUSE_REPORT_ID : Nat := 0x02
def MODIFIER_INDEX : Nat := 1
def DATA_INDEX : Nat := 3
def WHEEL_INDEX : Nat := 4
def LSHIFT_KEY_OFF : Nat := 0x00
def LSHIFT_KEY_ON : Nat := 0x02

def BTN0_PRESSED : Nat := 1 <<< 0
def BTN1_PRESSED : Nat := 1 <<< 1
def BTN_NONE_PRESSED : Nat := 0
def BTN_BOTH_PRESSED : Nat := BTN0_PRESSED ||| BTN1_PRESSED

/-! ## Types declared outside `app.c` -/

/-- Modelled from the spec: the enumeration `km_status_t` is declared in
`app.h`, which is not among the sources.  `app.c` uses exactly these four
enumerators; they are the spec's Intent values Idle, ScrollUp, ScrollDown and
SendString. -/
inductive km_status_t where
  | KM_IDLE
  | KM_SCROLL_UP
  | KM_SCROLL_DOWN
  | KM_SEND_STRING
  deriving DecidableEq, Repr

/-- Identifiers that `app.c` takes from the generated GATT database and from
the Bluetooth SDK headers.  Their numeric values are not in `app.c`, so they
are parameters of the event handler. -/
structure BtConsts where
  gattdb_report : Nat
  sl_bt_gatt_server_client_config : Nat
  sl_bt_gatt_notification : Nat

/-- The button instance a change callback is invoked for: `app.c` compares the
handle with the addresses of `sl_button_btn0` and `sl_button_btn1`. -/
inductive sl_button_t where
  | sl_button_btn0
  | sl_button_btn1
  | other_button
  deriving DecidableEq, Repr

/-- The Bluetooth events `sl_bt_on_event` switches on, with the fields it
reads.  `other_event` is any identifier that reaches the default case. -/
inductive sl_bt_msg_t where
  | system_boot
  | connection_opened
  | connection_closed
  | sm_bonded
  | sm_bonding_failed
  | gatt_server_characteristic_status
      (characteristic status_flags client_config_flags : Nat)
  | system_external_signal
  | other_event

/-! ## State -/

/-- The variables of `app.c` and the logs of its calls into the collaborators. -/
structure KmState where
  /-- The value of `static uint8_t notification_enabled`. -/
  notification_enabled : Nat
  /-- The value of `static km_status_t km_status`. -/
  km_status : km_status_t
  /-- The bits of the event group `xbtn_events`. -/
  xbtn_events : Nat
  /-- The local `is_running` of `km_btn_task`. -/
  is_running : Bool
  /-- The local `btn_press_timer` of `km_btn_task`: milliseconds until the
  one-shot fires, `none` when stopped. -/
  btn_press_timer : Option Nat
  /-- The array `kb_report_data`, nine bytes. -/
  kb_report_data : Fin 9 → Nat
  /-- The array `mouse_report_data`, five bytes. -/
  mouse_report_data : Fin 5 → Nat
  /-- Log of `sl_bt_gatt_server_notify_all` calls, oldest first:
  characteristic and payload. -/
  sent : List (Nat × List Nat)
  /-- Number of `sl_bt_external_signal(1)` calls. -/
  signals : Nat
  /-- Number of `sl_led_toggle(&sl_led_led0)` calls. -/
  led0_toggles : Nat
  /-- Number of `sl_led_toggle(&sl_led_led1)` calls. -/
  led1_toggles : Nat
  /-- Number of `app_timer_start` calls. -/
  timer_starts : Nat
  /-- Number of runs of `btn_press_timer_cb`. -/
  cb_calls : Nat

/-- The state after the static initialisers of `app.c`, before any event. -/
def boot : KmState where
  notification_enabled := 0
  km_status := km_status_t.KM_IDLE
  xbtn_events := 0
  is_running := false
  btn_press_timer := none
  kb_report_data := fun _ => 0
  mouse_report_data := fun _ => 0
  sent := []
  signals := 0
  led0_toggles := 0
  led1_toggles := 0
  timer_starts := 0
  cb_calls := 0

/-! ## Event group primitives -/

/-- The effect of `xEventGroupSetBitsFromISR`: the bits are or-ed in. -/
def xEventGroupSetBits (ev bits : Nat) : Nat := ev ||| bits

/-- The effect of `xEventGroupClearBitsFromISR`: `ev & ~bits`, written without
complement on unbounded naturals. -/
def xEventGroupClearBits (ev bits : Nat) : Nat := ev ^^^ (ev &&& bits)

/-! ## `sl_button_on_change` -/

/-- The button change callback.  `pressed` is
`sl_button_get_state(handle) == SL_SIMPLE_BUTTON_PRESSED`; `xResult` tells
whether the event-group call passed.  A failed call is logged and leaves the
bits as they were. -/
def sl_button_on_change (handle : sl_button_t) (pressed xResult : Bool)
    (s : KmState) : KmState :=
  let s1 :=
    if handle = sl_button_t.sl_button_btn0 then
      if pressed then
        if xResult then
          { s with xbtn_events := xEventGroupSetBits s.xbtn_events BTN0_PRESSED }
        else s
      else
        if xResult then
          { s with xbtn_events := xEventGroupClearBits s.xbtn_events BTN0_PRESSED }
        else s
    else s
  if handle = sl_button_t.sl_button_btn1 then
    if pressed then
      if xResult then
        { s1 with xbtn_events := xEventGroupSetBits s1.xbtn_events BTN1_PRESSED }
      else s1
    else
      if xResult then
        { s1 with xbtn_events := xEventGroupClearBits s1.xbtn_events BTN1_PRESSED }
      else s1
  else s1

/-! ## `km_btn_task` -/

/-- One pass through the body of the `while (1)` loop of `km_btn_task`, up to
but not including `vTaskDelay`. -/
def km_btn_task_body (s : KmState) : KmState :=
  let btn_events := s.xbtn_events
  if btn_events = BTN_BOTH_PRESSED then
    if !s.is_running then
      { s with
        btn_press_timer := some 2000
        timer_starts := s.timer_starts + 1
        is_running := true }
    else s
  else if btn_events = BTN0_PRESSED then
    { s with
      btn_press_timer := none
      km_status := km_status_t.KM_SCROLL_UP
      signals := s.signals + 1 }
  else if btn_events = BTN1_PRESSED then
    { s with
      btn_press_timer := none
      km_status := km_status_t.KM_SCROLL_DOWN
      signals := s.signals + 1 }
  else
    { s with
      btn_press_timer := none
      is_running := false }

/-! ## `btn_press_timer_cb` -/

/-- The timer callback.  `xResult` tells whether
`xEventGroupClearBitsFromISR` passed. -/
def btn_press_timer_cb (xResult : Bool) (s : KmState) : KmState :=
  let s1 :=
    if xResult then
      { s with xbtn_events := xEventGroupClearBits s.xbtn_events BTN_BOTH_PRESSED }
    else s
  { s1 with
    km_status := km_status_t.KM_SEND_STRING
    led0_toggles := s1.led0_toggles + 1
    led1_toggles := s1.led1_toggles + 1
    signals := s1.signals + 1
    cb_calls := s1.cb_calls + 1 }

/-! ## HID report builders -/

/-- The value of `sizeof(buf)` for an array of `n` bytes. -/
def sizeof_array {n : Nat} (_buf : Fin n → Nat) : Nat := n

/-- The effect of `memset(buf, c, len)` on an array of `n` bytes: the first
`len` bytes become `c`, the bytes after them keep their value. -/
def memset {n : Nat} (buf : Fin n → Nat) (c len : Nat) : Fin n → Nat :=
  fun j => if j.val < len then c else buf j

/-- The assignment `buf[i] = v`. -/
def set_byte {n : Nat} (buf : Fin n → Nat) (i : Nat) (v : Nat) : Fin n → Nat :=
  fun j => if j.val = i then v else buf j

/-- The call `sl_bt_gatt_server_notify_all(gattdb_report, sizeof(buf), buf)`. -/
def notify_all {n : Nat} (k : BtConsts) (buf : Fin n → Nat) (s : KmState) : KmState :=
  { s with sent := s.sent ++ [(k.gattdb_report, List.ofFn buf)] }

/-- The function `scroll_with_distance`. -/
def scroll_with_distance (k : BtConsts) (distance : Nat) (s : KmState) : KmState :=
  let b0 := memset s.mouse_report_data 0 (sizeof_array s.mouse_report_data)
  let b1 := set_byte b0 REPORT_ID_INDEX MOUSE_REPORT_ID
  let b2 := set_byte b1 WHEEL_INDEX distance
  notify_all k b2 { s with mouse_report_data := b2 }

/-- The function `send_keyboard`.  The closing 20 ms busy wait has no effect on
the state. -/
def send_keyboard (k : BtConsts) (caps_key c : Nat) (s : KmState) : KmState :=
  let b0 := memset s.kb_report_data 0 (sizeof_array s.kb_report_data)
  let b1 := set_byte b0 REPORT_ID_INDEX KB_REPORT_ID
  let b2 := set_byte b1 MODIFIER_INDEX caps_key
  let b3 := set_byte b2 DATA_INDEX c
  let s1 := notify_all k b3 { s with kb_report_data := b3 }
  let b4 := memset s1.kb_report_data 0 (sizeof_array s1.kb_report_data)
  let b5 := set_byte b4 REPORT_ID_INDEX KB_REPORT_ID
  notify_all k b5 { s1 with kb_report_data := b5 }

/-- The function `send_eetree_string`. -/
def send_eetree_string (k : BtConsts) (s : KmState) : KmState :=
  let s := send_keyboard k LSHIFT_KEY_ON 0x08 s
  let s := send_keyboard k LSHIFT_KEY_ON 0x08 s
  let s := send_keyboard k LSHIFT_KEY_ON 0x17 s
  let s := send_keyboard k LSHIFT_KEY_ON 0x15 s
  let s := send_keyboard k LSHIFT_KEY_ON 0x08 s
  let s := send_keyboard k LSHIFT_KEY_ON 0x08 s
  let s := send_keyboard k LSHIFT_KEY_OFF 0x37 s
  let s := send_keyboard k LSHIFT_KEY_ON 0x06 s
  send_keyboard k LSHIFT_KEY_ON 0x11 s

/-! ## `sl_bt_on_event` -/

/-- The Bluetooth event handler.  The advertiser and security-manager calls of
the boot, connection and bonding cases touch no variable of `app.c` other than
`advertising_set_handle`, which nothing here reads. -/
def sl_bt_on_event (k : BtConsts) (evt : sl_bt_msg_t) (s : KmState) : KmState :=
  match evt with
  | sl_bt_msg_t.system_boot => s
  | sl_bt_msg_t.connection_opened => s
  | sl_bt_msg_t.connection_closed => { s with notification_enabled := 0 }
  | sl_bt_msg_t.sm_bonded => s
  | sl_bt_msg_t.sm_bonding_failed => s
  | sl_bt_msg_t.gatt_server_characteristic_status characteristic status_flags
      client_config_flags =>
    if characteristic = k.gattdb_report then
      if status_flags = k.sl_bt_gatt_server_client_config then
        if client_config_flags = k.sl_bt_gatt_notification then
          { s with notification_enabled := 1 }
        else
          { s with notification_enabled := 0 }
      else s
    else s
  | sl_bt_msg_t.system_external_signal =>
    if s.notification_enabled = 1 ∧ s.km_status ≠ km_status_t.KM_IDLE then
      let s1 :=
        if s.km_status = km_status_t.KM_SEND_STRING then
          send_eetree_string k s
        else if s.km_status = km_status_t.KM_SCROLL_UP then
          scroll_with_distance k 0x01 s
        else
          scroll_with_distance k 0xFF s
      { s1 with km_status := km_status_t.KM_IDLE }
    else s
  | sl_bt_msg_t.other_event => s

/-! ## Step model -/

/-- The passing of `ms` milliseconds.  An armed one-shot timer whose remaining
time is at most `ms` fires once: it becomes stopped and `btn_press_timer_cb`
runs.  Otherwise its remaining time decreases. -/
def delay (ms : Nat) (xResult : Bool) (s : KmState) : KmState :=
  match s.btn_press_timer with
  | none => s
  | some r =>
    if r ≤ ms then
      btn_press_timer_cb xResult { s with btn_press_timer := none }
    else
      { s with btn_press_timer := some (r - ms) }

/-- The steps of the system. -/
inductive Step where
  /-- A button change callback. -/
  | edge (handle : sl_button_t) (pressed xResult : Bool)
  /-- One pass of the classifier loop body. -/
  | tick
  /-- Time passing; `xResult` is used if the timer fires. -/
  | wait (ms : Nat) (xResult : Bool)
  /-- A Bluetooth event. -/
  | bt (evt : sl_bt_msg_t)

/-- The effect of one step. -/
def step (k : BtConsts) (e : Step) (s : KmState) : KmState :=
  match e with
  | Step.edge handle pressed xResult => sl_button_on_change handle pressed xResult s
  | Step.tick => km_btn_task_body s
  | Step.wait ms xResult => delay ms xResult s
  | Step.bt evt => sl_bt_on_event k evt s

/-- The effect of a sequence of steps, first step first. -/
def run (k : BtConsts) (tr : List Step) (s : KmState) : KmState :=
  tr.foldl (fun acc e => step k e acc) s

/-- The time a sequence of steps takes. -/
def elapsed : List Step → Nat
  | [] => 0
  | Step.wait ms _ :: tr => ms + elapsed tr
  | _ :: tr => elapsed tr

/-! ## Auxiliary definitions for the statements -/

/-- The variables a report builder does not write. -/
def SameControl (s t : KmState) : Prop :=
  t.notification_enabled = s.notification_enabled ∧ t.km_status = s.km_status ∧
  t.xbtn_events = s.xbtn_events ∧ t.is_running = s.is_running ∧
  t.btn_press_timer = s.btn_press_timer ∧ t.signals = s.signals ∧
  t.led0_toggles = s.led0_toggles ∧ t.led1_toggles = s.led1_toggles ∧
  t.timer_starts = s.timer_starts ∧ t.cb_calls = s.cb_calls

/-- Sample values for the identifiers of `BtConsts`, used where a statement is
evaluated on a concrete input. -/
def sample_consts : BtConsts where
  gattdb_report := 7
  sl_bt_gatt_server_client_config := 1
  sl_bt_gatt_notification := 1

/-- The event by which a client enables notifications on the report
characteristic. -/
def subscribe_event (k : BtConsts) : sl_bt_msg_t :=
  sl_bt_msg_t.gatt_server_characteristic_status k.gattdb_report
    k.sl_bt_gatt_server_client_config k.sl_bt_gatt_notification

/-- The effect of a sequence of button changes, first change first, each given
by the button and whether it reads as pressed; every event-group call passes. -/
def apply_edges (edges : List (sl_button_t × Bool)) (s : KmState) : KmState :=
  edges.foldl (fun acc e => sl_button_on_change e.1 e.2 true acc) s

/-- The level of the last change that a sequence of button changes reports for
button `b`; `none` when the sequence has no change of `b`. -/
def last_level (b : sl_button_t) : List (sl_button_t × Bool) → Option Bool
  | [] => none
  | e :: rest =>
    match last_level b rest with
    | some l => some l
    | none => if e.1 = b then some e.2 else none

/-- The classifier polling `n` times at its 50 ms period with no other event in
between: `n` passes of the loop body, each followed by the 50 ms delay. -/
def hold_ticks : Nat → List Step
  | 0 => []
  | n + 1 => Step.tick :: Step.wait 50 true :: hold_ticks n

/-- Both buttons are pressed and a pass arms the timer; 50 ms later button 1 is
released and a pass reads button 0 only; 50 ms later button 1 is pressed again. -/
def release_and_repress : List Step :=
  [Step.edge sl_button_t.sl_button_btn0 true true,
   Step.edge sl_button_t.sl_button_btn1 true true,
   Step.tick, Step.wait 50 true,
   Step.edge sl_button_t.sl_button_btn1 false true,
   Step.tick, Step.wait 50 true,
   Step.edge sl_button_t.sl_button_btn1 true true]

/-- The classifier polling `n` times at its 50 ms period while a client is
served: `n` passes of the loop body, each followed by the external-signal event
it may have requested and by the 50 ms delay. -/
def scroll_rounds : Nat → List Step
  | 0 => []
  | n + 1 =>
    Step.tick :: Step.bt sl_bt_msg_t.system_external_signal :: Step.wait 50 true
      :: scroll_rounds n

/-- Whether a step is the Bluetooth event by which a client enables
notifications on the report characteristic: a characteristic-status event for
`gattdb_report` with the client-config status flag and the notification value. -/
def enables_notification (k : BtConsts) : Step → Bool
  | Step.bt (sl_bt_msg_t.gatt_server_characteristic_status c f v) =>
    decide (c = k.gattdb_report ∧ f = k.sl_bt_gatt_server_client_config ∧
      v = k.sl_bt_gatt_notification)
  | _ => false

/-- Whether a step taken in state `s` is not a classifier pass that reads no
button: a pass must read both buttons, button 0 only or button 1 only. -/
def reads_button : Step → KmState → Bool
  | Step.tick, s =>
    decide (s.xbtn_events = BTN_BOTH_PRESSED ∨ s.xbtn_events = BTN0_PRESSED ∨
      s.xbtn_events = BTN1_PRESSED)
  | _, _ => true

/-- Whether no classifier pass of the run `tr`, started in `s`, takes the
default case of the switch. -/
def no_none_read (k : BtConsts) : List Step → KmState → Bool
  | [], _ => true
  | e :: tr, s => reads_button e s && no_none_read k tr (step k e s)

theorem scroll_with_distance_sent (k : BtConsts) (d : Nat) (s : KmState) :
    (scroll_with_distance k d s).sent
      = s.sent ++ [(k.gattdb_report, [0x02, 0, 0, 0, d])] := by
  simp [scroll_with_distance, notify_all, set_byte, memset, sizeof_array, List.ofFn_succ,
    REPORT_ID_INDEX, MOUSE_REPORT_ID, WHEEL_INDEX]

theorem send_keyboard_sent (k : BtConsts) (m c : Nat) (s : KmState) :
    (send_keyboard k m c s).sent
      = s.sent ++ [(k.gattdb_report, [0x01, m, 0, c, 0, 0, 0, 0, 0]),
                   (k.gattdb_report, [0x01, 0, 0, 0, 0, 0, 0, 0, 0])] := by
  simp [send_keyboard, notify_all, set_byte, memset, sizeof_array, List.ofFn_succ,
    REPORT_ID_INDEX, KB_REPORT_ID, MODIFIER_INDEX, DATA_INDEX]

theorem send_eetree_string_sent (k : BtConsts) (s : KmState) :
    (send_eetree_string k s).sent
      = s.sent ++
        [(k.gattdb_report, [0x01, 0x02, 0, 0x08, 0, 0, 0, 0, 0]),
         (k.gattdb_report, [0x01, 0, 0, 0, 0, 0, 0, 0, 0]),
         (k.gattdb_report, [0x01, 0x02, 0, 0x08, 0, 0, 0, 0, 0]),
         (k.gattdb_report, [0x01, 0, 0, 0, 0, 0, 0, 0, 0]),
         (k.gattdb_report, [0x01, 0x02, 0, 0x17, 0, 0, 0, 0, 0]),
         (k.gattdb_report, [0x01, 0, 0, 0, 0, 0, 0, 0, 0]),
         (k.gattdb_report, [0x01, 0x02, 0, 0x15, 0, 0, 0, 0, 0]),
         (k.gattdb_report, [0x01, 0, 0, 0, 0, 0, 0, 0, 0]),
         (k.gattdb_report, [0x01, 0x02, 0, 0x08, 0, 0, 0, 0, 0]),
         (k.gattdb_report, [0x01, 0, 0, 0, 0, 0, 0, 0, 0]),
         (k.gattdb_report, [0x01, 0x02, 0, 0x08, 0, 0, 0, 0, 0]),
         (k.gattdb_report, [0x01, 0, 0, 0, 0, 0, 0, 0, 0]),
         (k.gattdb_report, [0x01, 0x00, 0, 0x37, 0, 0, 0, 0, 0]),
         (k.gattdb_report, [0x01, 0, 0, 0, 0, 0, 0, 0, 0]),
         (k.gattdb_report, [0x01, 0x02, 0, 0x06, 0, 0, 0, 0, 0]),
         (k.gattdb_report, [0x01, 0, 0, 0, 0, 0, 0, 0, 0]),
         (k.gattdb_report, [0x01, 0x02, 0, 0x11, 0, 0, 0, 0, 0]),
         (k.gattdb_report, [0x01, 0, 0, 0, 0, 0, 0, 0, 0])] := by
  simp [send_eetree_string, send_keyboard_sent, LSHIFT_KEY_ON, LSHIFT_KEY_OFF]

theorem SameControl.trans {s t u : KmState} (h1 : SameControl s t)
    (h2 : SameControl t u) : SameControl s u := by
  obtain ⟨a1, a2, a3, a4, a5, a6, a7, a8, a9, a10⟩ := h1
  obtain ⟨b1, b2, b3, b4, b5, b6, b7, b8, b9, b10⟩ := h2
  exact ⟨b1.trans a1, b2.trans a2, b3.trans a3, b4.trans a4, b5.trans a5,
    b6.trans a6, b7.trans a7, b8.trans a8, b9.trans a9, b10.trans a10⟩

theorem scroll_with_distance_control (k : BtConsts) (d : Nat) (s : KmState) :
    SameControl s (scroll_with_distance k d s) := by
  simp [SameControl, scroll_with_distance, notify_all]

theorem send_keyboard_control (k : BtConsts) (m c : Nat) (s : KmState) :
    SameControl s (send_keyboard k m c s) := by
  simp [SameControl, send_keyboard, notify_all]

theorem send_eetree_string_control (k : BtConsts) (s : KmState) :
    SameControl s (send_eetree_string k s) := by
  unfold send_eetree_string
  exact (send_keyboard_control k _ _ _).trans <|
    (send_keyboard_control k _ _ _).trans <|
    (send_keyboard_control k _ _ _).trans <|
    (send_keyboard_control k _ _ _).trans <|
    (send_keyboard_control k _ _ _).trans <|
    (send_keyboard_control k _ _ _).trans <|
    (send_keyboard_control k _ _ _).trans <|
    (send_keyboard_control k _ _ _).trans <|
    (send_keyboard_control k _ _ _)

/-! ## The dispatcher: the external-signal case of `sl_bt_on_event` -/

/-- The external-signal case does nothing unless notifications are enabled and
an intent is pending. -/
theorem external_signal_skip (k : BtConsts) (s : KmState)
    (h : s.notification_enabled ≠ 1 ∨ s.km_status = km_status_t.KM_IDLE) :
    sl_bt_on_event k sl_bt_msg_t.system_external_signal s = s := by
  unfold sl_bt_on_event
  rcases h with h | h
  · simp [h]
  · simp [h]

/-- What the external-signal case sends and writes when it dispatches. -/
theorem external_signal_dispatch (k : BtConsts) (s : KmState)
    (hn : s.notification_enabled = 1) (hi : s.km_status ≠ km_status_t.KM_IDLE) :
    let t := sl_bt_on_event k sl_bt_msg_t.system_external_signal s
    t.km_status = km_status_t.KM_IDLE ∧
    t.notification_enabled = s.notification_enabled ∧
    t.xbtn_events = s.xbtn_events ∧
    t.sent =
      (if s.km_status = km_status_t.KM_SEND_STRING then send_eetree_string k s
       else if s.km_status = km_status_t.KM_SCROLL_UP then scroll_with_distance k 0x01 s
       else scroll_with_distance k 0xFF s).sent := by
  intro t
  have ht : t = { (if s.km_status = km_status_t.KM_SEND_STRING then send_eetree_string k s
       else if s.km_status = km_status_t.KM_SCROLL_UP then scroll_with_distance k 0x01 s
       else scroll_with_distance k 0xFF s) with km_status := km_status_t.KM_IDLE } := by
    simp [t, sl_bt_on_event, hn, hi]
  rw [ht]
  refine ⟨rfl, ?_, ?_, rfl⟩
  · split_ifs
    · exact (send_eetree_string_control k s).1
    · exact (scroll_with_distance_control k 0x01 s).1
    · exact (scroll_with_distance_control k 0xFF s).1
  · split_ifs
    · exact (send_eetree_string_control k s).2.2.1
    · exact (scroll_with_distance_control k 0x01 s).2.2.1
    · exact (scroll_with_distance_control k 0xFF s).2.2.1

theorem subscribe_event_enables (k : BtConsts) (s : KmState) :
    sl_bt_on_event k (subscribe_event k) s = { s with notification_enabled := 1 } := by
  simp [sl_bt_on_event, subscribe_event]

/-- C1, counterexample.  After button 0 is pressed and one classifier pass has
set the scroll-up intent, notifications are not enabled; the external-signal
event then leaves the intent pending instead of resetting it to idle, and once
the client has subscribed the next external-signal event sends the mouse report
for it. -/
theorem unsubscribed_signal_drops_intent_cex :
    (run sample_consts [Step.edge sl_button_t.sl_button_btn0 true true, Step.tick]
        boot).notification_enabled ≠ 1 ∧
    (run sample_consts [Step.edge sl_button_t.sl_button_btn0 true true, Step.tick]
        boot).km_status ≠ km_status_t.KM_IDLE ∧
    (sl_bt_on_event sample_consts sl_bt_msg_t.system_external_signal
        (run sample_consts [Step.edge sl_button_t.sl_button_btn0 true true, Step.tick]
          boot)).km_status = km_status_t.KM_SCROLL_UP ∧
    (run sample_consts
        [Step.edge sl_button_t.sl_button_btn0 true true, Step.tick,
         Step.bt sl_bt_msg_t.system_external_signal,
         Step.bt (subscribe_event sample_consts),
         Step.bt sl_bt_msg_t.system_external_signal] boot).sent
      = [(7, [0x02, 0, 0, 0, 0x01])] := by
  decide

/-- C1, amended.  With notifications not enabled and an intent pending, the
external-signal event changes nothing: the intent keeps its value and nothing is
sent.  The intent stays pending, so the external-signal event handled after the
client has subscribed dispatches it and only then resets the intent to idle:
for a pending scroll-up exactly the mouse report 2, 0, 0, 0, 1 is sent, for a
pending scroll-down exactly the mouse report 2, 0, 0, 0, 255, and for a pending
send-string exactly the eighteen keyboard reports of EETREE.CN. -/
theorem unsubscribed_signal_keeps_intent (k : BtConsts) (s : KmState)
    (hn : s.notification_enabled ≠ 1) (hi : s.km_status ≠ km_status_t.KM_IDLE) :
    sl_bt_on_event k sl_bt_msg_t.system_external_signal s = s ∧
    (sl_bt_on_event k sl_bt_msg_t.system_external_signal s).km_status = s.km_status ∧
    (sl_bt_on_event k sl_bt_msg_t.system_external_signal s).sent = s.sent ∧
    (run k [Step.bt sl_bt_msg_t.system_external_signal, Step.bt (subscribe_event k),
            Step.bt sl_bt_msg_t.system_external_signal] s).km_status
      = km_status_t.KM_IDLE ∧
    (s.km_status = km_status_t.KM_SCROLL_UP →
      (run k [Step.bt sl_bt_msg_t.system_external_signal, Step.bt (subscribe_event k),
              Step.bt sl_bt_msg_t.system_external_signal] s).sent
        = s.sent ++ [(k.gattdb_report, [0x02, 0x00, 0x00, 0x00, 0x01])]) ∧
    (s.km_status = km_status_t.KM_SCROLL_DOWN →
      (run k [Step.bt sl_bt_msg_t.system_external_signal, Step.bt (subscribe_event k),
              Step.bt sl_bt_msg_t.system_external_signal] s).sent
        = s.sent ++ [(k.gattdb_report, [0x02, 0x00, 0x00, 0x00, 0xFF])]) ∧
    (s.km_status = km_status_t.KM_SEND_STRING →
      (run k [Step.bt sl_bt_msg_t.system_external_signal, Step.bt (subscribe_event k),
              Step.bt sl_bt_msg_t.system_external_signal] s).sent
        = s.sent ++
          [(k.gattdb_report, [0x01, 0x02, 0x00, 0x08, 0, 0, 0, 0, 0]),
           (k.gattdb_report, [0x01, 0x00, 0x00, 0x00, 0, 0, 0, 0, 0]),
           (k.gattdb_report, [0x01, 0x02, 0x00, 0x08, 0, 0, 0, 0, 0]),
           (k.gattdb_report, [0x01, 0x00, 0x00, 0x00, 0, 0, 0, 0, 0]),
           (k.gattdb_report, [0x01, 0x02, 0x00, 0x17, 0, 0, 0, 0, 0]),
           (k.gattdb_report, [0x01, 0x00, 0x00, 0x00, 0, 0, 0, 0, 0]),
           (k.gattdb_report, [0x01, 0x02, 0x00, 0x15, 0, 0, 0, 0, 0]),
           (k.gattdb_report, [0x01, 0x00, 0x00, 0x00, 0, 0, 0, 0, 0]),
           (k.gattdb_report, [0x01, 0x02, 0x00, 0x08, 0, 0, 0, 0, 0]),
           (k.gattdb_report, [0x01, 0x00, 0x00, 0x00, 0, 0, 0, 0, 0]),
           (k.gattdb_report, [0x01, 0x02, 0x00, 0x08, 0, 0, 0, 0, 0]),
           (k.gattdb_report, [0x01, 0x00, 0x00, 0x00, 0, 0, 0, 0, 0]),
           (k.gattdb_report, [0x01, 0x00, 0x00, 0x37, 0, 0, 0, 0, 0]),
           (k.gattdb_report, [0x01, 0x00, 0x00, 0x00, 0, 0, 0, 0, 0]),
           (k.gattdb_report, [0x01, 0x02, 0x00, 0x06, 0, 0, 0, 0, 0]),
           (k.gattdb_report, [0x01, 0x00, 0x00, 0x00, 0, 0, 0, 0, 0]),
           (k.gattdb_report, [0x01, 0x02, 0x00, 0x11, 0, 0, 0, 0, 0]),
           (k.gattdb_report, [0x01, 0x00, 0x00, 0x00, 0, 0, 0, 0, 0])]) := by
  have h0 := external_signal_skip k s (Or.inl hn)
  have hrun : run k [Step.bt sl_bt_msg_t.system_external_signal, Step.bt (subscribe_event k),
      Step.bt sl_bt_msg_t.system_external_signal] s
      = sl_bt_on_event k sl_bt_msg_t.system_external_signal
          { s with notification_enabled := 1 } := by
    simp only [run, List.foldl, step, h0, subscribe_event_enables]
  have hd := external_signal_dispatch k { s with notification_enabled := 1 } rfl hi
  simp only at hd
  refine ⟨h0, by rw [h0], by rw [h0], ?_, ?_, ?_, ?_⟩
  · rw [hrun]
    exact hd.1
  · intro h
    rw [hrun, hd.2.2.2, h]
    simp only [reduceCtorEq, if_false, if_true]
    exact scroll_with_distance_sent k 0x01 { s with notification_enabled := 1 }
  · intro h
    rw [hrun, hd.2.2.2, h]
    simp only [reduceCtorEq, if_false]
    exact scroll_with_distance_sent k 0xFF { s with notification_enabled := 1 }
  · intro h
    rw [hrun, hd.2.2.2, if_pos h]
    exact send_eetree_string_sent k { s with notification_enabled := 1 }

/-- Witness of `unsubscribed_signal_keeps_intent` at the boot state with a
scroll-down intent pending: the unsubscribed event keeps the intent, and the
event handled after the subscription sends the scroll-down report. -/
theorem unsubscribed_signal_keeps_intent_witness :
    ({ boot with km_status := km_status_t.KM_SCROLL_DOWN } : KmState).notification_enabled ≠ 1 ∧
    ({ boot with km_status := km_status_t.KM_SCROLL_DOWN } : KmState).km_status
      ≠ km_status_t.KM_IDLE ∧
    (sl_bt_on_event sample_consts sl_bt_msg_t.system_external_signal
      { boot with km_status := km_status_t.KM_SCROLL_DOWN }).km_status
      = km_status_t.KM_SCROLL_DOWN ∧
    (run sample_consts
      [Step.bt sl_bt_msg_t.system_external_signal, Step.bt (subscribe_event sample_consts),
       Step.bt sl_bt_msg_t.system_external_signal]
      { boot with km_status := km_status_t.KM_SCROLL_DOWN }).sent
      = [] ++ [(7, [0x02, 0x00, 0x00, 0x00, 0xFF])] :=
  ⟨by decide, by decide,
   (unsubscribed_signal_keeps_intent sample_consts
      { boot with km_status := km_status_t.KM_SCROLL_DOWN } (by decide) (by decide)).2.1,
   (unsubscribed_signal_keeps_intent sample_consts
      { boot with km_status := km_status_t.KM_SCROLL_DOWN } (by decide) (by decide)
      ).2.2.2.2.2.1 rfl⟩

/-- C4.  With notifications enabled and the send-string intent pending, the
external-signal event sends exactly eighteen notifications on the report
characteristic: for each of the nine keystrokes of EETREE.CN in order the
key-down report with report id 1, the modifier and the keycode, directly followed
by the key-up report whose modifier and keycode are zero. -/
theorem send_string_dispatch_reports (k : BtConsts) (s : KmState)
    (hn : s.notification_enabled = 1)
    (hi : s.km_status = km_status_t.KM_SEND_STRING) :
    (sl_bt_on_event k sl_bt_msg_t.system_external_signal s).sent
      = s.sent ++
        [(k.gattdb_report, [0x01, 0x02, 0x00, 0x08, 0, 0, 0, 0, 0]),
         (k.gattdb_report, [0x01, 0x00, 0x00, 0x00, 0, 0, 0, 0, 0]),
         (k.gattdb_report, [0x01, 0x02, 0x00, 0x08, 0, 0, 0, 0, 0]),
         (k.gattdb_report, [0x01, 0x00, 0x00, 0x00, 0, 0, 0, 0, 0]),
         (k.gattdb_report, [0x01, 0x02, 0x00, 0x17, 0, 0, 0, 0, 0]),
         (k.gattdb_report, [0x01, 0x00, 0x00, 0x00, 0, 0, 0, 0, 0]),
         (k.gattdb_report, [0x01, 0x02, 0x00, 0x15, 0, 0, 0, 0, 0]),
         (k.gattdb_report, [0x01, 0x00, 0x00, 0x00, 0, 0, 0, 0, 0]),
         (k.gattdb_report, [0x01, 0x02, 0x00, 0x08, 0, 0, 0, 0, 0]),
         (k.gattdb_report, [0x01, 0x00, 0x00, 0x00, 0, 0, 0, 0, 0]),
         (k.gattdb_report, [0x01, 0x02, 0x00, 0x08, 0, 0, 0, 0, 0]),
         (k.gattdb_report, [0x01, 0x00, 0x00, 0x00, 0, 0, 0, 0, 0]),
         (k.gattdb_report, [0x01, 0x00, 0x00, 0x37, 0, 0, 0, 0, 0]),
         (k.gattdb_report, [0x01, 0x00, 0x00, 0x00, 0, 0, 0, 0, 0]),
         (k.gattdb_report, [0x01, 0x02, 0x00, 0x06, 0, 0, 0, 0, 0]),
         (k.gattdb_report, [0x01, 0x00, 0x00, 0x00, 0, 0, 0, 0, 0]),
         (k.gattdb_report, [0x01, 0x02, 0x00, 0x11, 0, 0, 0, 0, 0]),
         (k.gattdb_report, [0x01, 0x00, 0x00, 0x00, 0, 0, 0, 0, 0])] := by
  have hd := (external_signal_dispatch k s hn (by rw [hi]; decide)).2.2.2
  simp only at hd
  rw [hd, if_pos hi]
  exact send_eetree_string_sent k s

/-- Witness of `send_string_dispatch_reports`: a subscribed state with the
send-string intent pending; eighteen notifications are sent. -/
theorem send_string_dispatch_reports_witness :
    ({ boot with notification_enabled := 1, km_status := km_status_t.KM_SEND_STRING }
      : KmState).notification_enabled = 1 ∧
    ({ boot with notification_enabled := 1, km_status := km_status_t.KM_SEND_STRING }
      : KmState).km_status = km_status_t.KM_SEND_STRING ∧
    (sl_bt_on_event sample_consts sl_bt_msg_t.system_external_signal
      { boot with notification_enabled := 1, km_status := km_status_t.KM_SEND_STRING }
      ).sent.length = 18 :=
  ⟨rfl, rfl, by
    rw [send_string_dispatch_reports sample_consts
      { boot with notification_enabled := 1, km_status := km_status_t.KM_SEND_STRING }
      rfl rfl]
    rfl⟩

/-- C5.  With notifications enabled, the external-signal event with the
scroll-up intent sends exactly one notification, the mouse report
2, 0, 0, 0, 1, and with the scroll-down intent exactly one notification, the
mouse report 2, 0, 0, 0, 255: buttons, x and y are zero in both. -/
theorem scroll_dispatch_reports (k : BtConsts) (s : KmState)
    (hn : s.notification_enabled = 1) :
    (s.km_status = km_status_t.KM_SCROLL_UP →
      (sl_bt_on_event k sl_bt_msg_t.system_external_signal s).sent
        = s.sent ++ [(k.gattdb_report, [0x02, 0x00, 0x00, 0x00, 0x01])]) ∧
    (s.km_status = km_status_t.KM_SCROLL_DOWN →
      (sl_bt_on_event k sl_bt_msg_t.system_external_signal s).sent
        = s.sent ++ [(k.gattdb_report, [0x02, 0x00, 0x00, 0x00, 0xFF])]) := by
  constructor
  · intro hi
    have hd := (external_signal_dispatch k s hn (by rw [hi]; decide)).2.2.2
    simp only at hd
    rw [hd, hi]
    exact scroll_with_distance_sent k 0x01 s
  · intro hi
    have hd := (external_signal_dispatch k s hn (by rw [hi]; decide)).2.2.2
    simp only at hd
    rw [hd, hi]
    exact scroll_with_distance_sent k 0xFF s

/-- Witness of `scroll_dispatch_reports`: a subscribed state with the scroll-up
intent pending and one with the scroll-down intent pending. -/
theorem scroll_dispatch_reports_witness :
    (({ boot with notification_enabled := 1, km_status := km_status_t.KM_SCROLL_UP }
        : KmState).notification_enabled = 1 ∧
      ({ boot with notification_enabled := 1, km_status := km_status_t.KM_SCROLL_UP }
        : KmState).km_status = km_status_t.KM_SCROLL_UP ∧
      (sl_bt_on_event sample_consts sl_bt_msg_t.system_external_signal
        { boot with notification_enabled := 1, km_status := km_status_t.KM_SCROLL_UP }
        ).sent = [] ++ [(7, [0x02, 0x00, 0x00, 0x00, 0x01])]) ∧
    (({ boot with notification_enabled := 1, km_status := km_status_t.KM_SCROLL_DOWN }
        : KmState).notification_enabled = 1 ∧
      ({ boot with notification_enabled := 1, km_status := km_status_t.KM_SCROLL_DOWN }
        : KmState).km_status = km_status_t.KM_SCROLL_DOWN ∧
      (sl_bt_on_event sample_consts sl_bt_msg_t.system_external_signal
        { boot with notification_enabled := 1, km_status := km_status_t.KM_SCROLL_DOWN }
        ).sent = [] ++ [(7, [0x02, 0x00, 0x00, 0x00, 0xFF])]) :=
  ⟨⟨rfl, rfl,
    (scroll_dispatch_reports sample_consts
      { boot with notification_enabled := 1, km_status := km_status_t.KM_SCROLL_UP }
      rfl).1 rfl⟩,
   ⟨rfl, rfl,
    (scroll_dispatch_reports sample_consts
      { boot with notification_enabled := 1, km_status := km_status_t.KM_SCROLL_DOWN }
      rfl).2 rfl⟩⟩

/-- C8.  The external-signal event sends nothing when notifications are not
enabled or when the intent is idle; conversely, if it sends anything then
notifications are enabled and the intent is not idle. -/
theorem dispatch_only_when_subscribed_and_pending (k : BtConsts) (s : KmState) :
    ((s.notification_enabled ≠ 1 ∨ s.km_status = km_status_t.KM_IDLE) →
      (sl_bt_on_event k sl_bt_msg_t.system_external_signal s).sent = s.sent) ∧
    ((sl_bt_on_event k sl_bt_msg_t.system_external_signal s).sent ≠ s.sent →
      s.notification_enabled = 1 ∧ s.km_status ≠ km_status_t.KM_IDLE) := by
  constructor
  · intro h
    rw [external_signal_skip k s h]
  · intro h
    by_contra hc
    apply h
    rw [external_signal_skip k s (by
      by_cases hn : s.notification_enabled = 1
      · right
        by_contra hi
        exact hc ⟨hn, hi⟩
      · left
        exact hn)]

/-- Witness of `dispatch_only_when_subscribed_and_pending`: the boot state, where
nothing is sent, and a subscribed state with a pending scroll-up intent, where a
report is sent. -/
theorem dispatch_only_when_subscribed_and_pending_witness :
    ((boot.notification_enabled ≠ 1 ∨ boot.km_status = km_status_t.KM_IDLE) ∧
      (sl_bt_on_event sample_consts sl_bt_msg_t.system_external_signal boot).sent
        = boot.sent) ∧
    ((sl_bt_on_event sample_consts sl_bt_msg_t.system_external_signal
        { boot with notification_enabled := 1, km_status := km_status_t.KM_SCROLL_UP }).sent
        ≠ ({ boot with notification_enabled := 1, km_status := km_status_t.KM_SCROLL_UP }
            : KmState).sent ∧
      ({ boot with notification_enabled := 1, km_status := km_status_t.KM_SCROLL_UP }
        : KmState).notification_enabled = 1) :=
  ⟨⟨by decide,
    (dispatch_only_when_subscribed_and_pending sample_consts boot).1 (by decide)⟩,
   ⟨by decide,
    ((dispatch_only_when_subscribed_and_pending sample_consts
      { boot with notification_enabled := 1, km_status := km_status_t.KM_SCROLL_UP }).2
      (by decide)).1⟩⟩

/-- C9.  With notifications enabled and a scroll-up, scroll-down or send-string
intent pending, the external-signal event leaves the intent idle and leaves the
subscription flag and the button bits as they were; a second external-signal
event right after it changes nothing, so it sends no report. -/
theorem dispatch_resets_intent_once (k : BtConsts) (s : KmState)
    (hn : s.notification_enabled = 1)
    (hi : s.km_status = km_status_t.KM_SCROLL_UP ∨
          s.km_status = km_status_t.KM_SCROLL_DOWN ∨
          s.km_status = km_status_t.KM_SEND_STRING) :
    (sl_bt_on_event k sl_bt_msg_t.system_external_signal s).km_status
      = km_status_t.KM_IDLE ∧
    (sl_bt_on_event k sl_bt_msg_t.system_external_signal s).notification_enabled
      = s.notification_enabled ∧
    (sl_bt_on_event k sl_bt_msg_t.system_external_signal s).xbtn_events
      = s.xbtn_events ∧
    (sl_bt_on_event k sl_bt_msg_t.system_external_signal
      (sl_bt_on_event k sl_bt_msg_t.system_external_signal s)).sent
      = (sl_bt_on_event k sl_bt_msg_t.system_external_signal s).sent := by
  have hne : s.km_status ≠ km_status_t.KM_IDLE := by
    rcases hi with h | h | h <;> rw [h] <;> decide
  obtain ⟨h1, h2, h3, _⟩ := external_signal_dispatch k s hn hne
  refine ⟨h1, h2, h3, ?_⟩
  rw [external_signal_skip k _ (Or.inr h1)]

/-- Witness of `dispatch_resets_intent_once`: a subscribed state with both button
bits set and the send-string intent pending. -/
theorem dispatch_resets_intent_once_witness :
    ({ boot with notification_enabled := 1, xbtn_events := 3,
                 km_status := km_status_t.KM_SEND_STRING } : KmState).notification_enabled
      = 1 ∧
    ({ boot with notification_enabled := 1, xbtn_events := 3,
                 km_status := km_status_t.KM_SEND_STRING } : KmState).km_status
      = km_status_t.KM_SEND_STRING ∧
    (sl_bt_on_event sample_consts sl_bt_msg_t.system_external_signal
      { boot with notification_enabled := 1, xbtn_events := 3,
                  km_status := km_status_t.KM_SEND_STRING }).km_status
      = km_status_t.KM_IDLE ∧
    (sl_bt_on_event sample_consts sl_bt_msg_t.system_external_signal
      { boot with notification_enabled := 1, xbtn_events := 3,
                  km_status := km_status_t.KM_SEND_STRING }).xbtn_events = 3 :=
  ⟨rfl, rfl,
   (dispatch_resets_intent_once sample_consts
      { boot with notification_enabled := 1, xbtn_events := 3,
                  km_status := km_status_t.KM_SEND_STRING }
      rfl (Or.inr (Or.inr rfl))).1,
   (dispatch_resets_intent_once sample_consts
      { boot with notification_enabled := 1, xbtn_events := 3,
                  km_status := km_status_t.KM_SEND_STRING }
      rfl (Or.inr (Or.inr rfl))).2.2.1⟩

/-! ## The button bits -/

theorem BTN0_PRESSED_eq : BTN0_PRESSED = 2 ^ 0 := by decide

theorem BTN1_PRESSED_eq : BTN1_PRESSED = 2 ^ 1 := by decide

theorem BTN_BOTH_PRESSED_eq : BTN_BOTH_PRESSED = 3 := by decide

theorem setBits_testBit (ev b i : Nat) :
    (xEventGroupSetBits ev (2 ^ b)).testBit i = (ev.testBit i || decide (b = i)) := by
  simp [xEventGroupSetBits, Nat.testBit_or, Nat.testBit_two_pow]

theorem clearBits_testBit (ev b i : Nat) :
    (xEventGroupClearBits ev (2 ^ b)).testBit i = (ev.testBit i && !decide (b = i)) := by
  simp only [xEventGroupClearBits, Nat.testBit_xor, Nat.testBit_and, Nat.testBit_two_pow]
  cases ev.testBit i <;> cases decide (b = i) <;> rfl

/-- The bits after a change of button 0 whose event-group call passes. -/
theorem on_change_btn0_testBit (pressed : Bool) (s : KmState) (i : Nat) :
    (sl_button_on_change sl_button_t.sl_button_btn0 pressed true s).xbtn_events.testBit i
      = if i = 0 then pressed else s.xbtn_events.testBit i := by
  cases pressed
  · simp only [sl_button_on_change, BTN0_PRESSED_eq]
    simp only [if_true, reduceCtorEq, if_false, Bool.false_eq_true, clearBits_testBit]
    by_cases h : i = 0
    · simp [h]
    · simp [h, Ne.symm h]
  · simp only [sl_button_on_change, BTN0_PRESSED_eq]
    simp only [if_true, reduceCtorEq, if_false, setBits_testBit]
    by_cases h : i = 0
    · simp [h]
    · simp [h, Ne.symm h]

/-- The bits after a change of button 1 whose event-group call passes. -/
theorem on_change_btn1_testBit (pressed : Bool) (s : KmState) (i : Nat) :
    (sl_button_on_change sl_button_t.sl_button_btn1 pressed true s).xbtn_events.testBit i
      = if i = 1 then pressed else s.xbtn_events.testBit i := by
  cases pressed
  · simp only [sl_button_on_change, BTN1_PRESSED_eq]
    simp only [if_true, reduceCtorEq, if_false, Bool.false_eq_true, clearBits_testBit]
    by_cases h : i = 1
    · simp [h]
    · simp [h, Ne.symm h]
  · simp only [sl_button_on_change, BTN1_PRESSED_eq]
    simp only [if_true, reduceCtorEq, if_false, setBits_testBit]
    by_cases h : i = 1
    · simp [h]
    · simp [h, Ne.symm h]

/-- A change of a button other than the two of the board writes nothing. -/
theorem on_change_other (pressed xResult : Bool) (s : KmState) :
    sl_button_on_change sl_button_t.other_button pressed xResult s = s := by
  simp [sl_button_on_change]

/-- The bits after one change whose event-group call passes, for any button. -/
theorem on_change_testBit (e : sl_button_t × Bool) (s : KmState) (i : Nat) :
    (sl_button_on_change e.1 e.2 true s).xbtn_events.testBit i
      = if (e.1 = sl_button_t.sl_button_btn0 ∧ i = 0) ∨
           (e.1 = sl_button_t.sl_button_btn1 ∧ i = 1) then e.2
        else s.xbtn_events.testBit i := by
  obtain ⟨h, p⟩ := e
  cases h
  · simp [on_change_btn0_testBit]
  · simp [on_change_btn1_testBit]
  · simp [on_change_other]

theorem apply_edges_cons (e : sl_button_t × Bool) (rest : List (sl_button_t × Bool))
    (s : KmState) :
    apply_edges (e :: rest) s = apply_edges rest (sl_button_on_change e.1 e.2 true s) := rfl

/-- Bit 0 after a sequence of changes, from any starting bits. -/
theorem apply_edges_bit0 (edges : List (sl_button_t × Bool)) (s : KmState) :
    (apply_edges edges s).xbtn_events.testBit 0
      = (last_level sl_button_t.sl_button_btn0 edges).getD (s.xbtn_events.testBit 0) := by
  induction edges generalizing s with
  | nil => rfl
  | cons e rest ih =>
    rw [apply_edges_cons, ih, last_level]
    cases hl : last_level sl_button_t.sl_button_btn0 rest with
    | some l => rfl
    | none =>
      simp only [Option.getD_none, on_change_testBit]
      by_cases he : e.1 = sl_button_t.sl_button_btn0
      · simp [he]
      · simp [he]

/-- Bit 1 after a sequence of changes, from any starting bits. -/
theorem apply_edges_bit1 (edges : List (sl_button_t × Bool)) (s : KmState) :
    (apply_edges edges s).xbtn_events.testBit 1
      = (last_level sl_button_t.sl_button_btn1 edges).getD (s.xbtn_events.testBit 1) := by
  induction edges generalizing s with
  | nil => rfl
  | cons e rest ih =>
    rw [apply_edges_cons, ih, last_level]
    cases hl : last_level sl_button_t.sl_button_btn1 rest with
    | some l => rfl
    | none =>
      simp only [Option.getD_none, on_change_testBit]
      by_cases he : e.1 = sl_button_t.sl_button_btn1
      · simp [he]
      · simp [he]

/-- The bits above the two button bits are never written. -/
theorem apply_edges_high_bits (edges : List (sl_button_t × Bool)) (s : KmState)
    (i : Nat) (hi : 2 ≤ i) :
    (apply_edges edges s).xbtn_events.testBit i = s.xbtn_events.testBit i := by
  induction edges generalizing s with
  | nil => rfl
  | cons e rest ih =>
    rw [apply_edges_cons, ih, on_change_testBit]
    have h0 : i ≠ 0 := by omega
    have h1 : i ≠ 1 := by omega
    simp [h0, h1]

/-- C7.  Starting from no bit set and applying any finite sequence of button
changes whose event-group calls pass, bit 0 of the event group is set exactly
when the last change of button 0 was a press and bit 1 exactly when the last
change of button 1 was a press (clear when the button had no change), and no
other bit is set.  A change of button 0 never changes bit 1 and a change of
button 1 never changes bit 0. -/
theorem edge_latch_holds_last_level (edges : List (sl_button_t × Bool)) :
    ((apply_edges edges boot).xbtn_events.testBit 0
      = (last_level sl_button_t.sl_button_btn0 edges).getD false) ∧
    ((apply_edges edges boot).xbtn_events.testBit 1
      = (last_level sl_button_t.sl_button_btn1 edges).getD false) ∧
    (apply_edges edges boot).xbtn_events < 4 ∧
    (∀ (s : KmState) (pressed : Bool),
      (sl_button_on_change sl_button_t.sl_button_btn0 pressed true s).xbtn_events.testBit 1
        = s.xbtn_events.testBit 1) ∧
    (∀ (s : KmState) (pressed : Bool),
      (sl_button_on_change sl_button_t.sl_button_btn1 pressed true s).xbtn_events.testBit 0
        = s.xbtn_events.testBit 0) := by
  refine ⟨?_, ?_, ?_, ?_, ?_⟩
  · rw [apply_edges_bit0]
    rfl
  · rw [apply_edges_bit1]
    rfl
  · have h : (apply_edges edges boot).xbtn_events < 2 ^ 2 := by
      apply Nat.lt_pow_two_of_testBit
      intro i hi
      rw [apply_edges_high_bits edges boot i hi]
      exact Nat.zero_testBit i
    simpa using h
  · intro s pressed
    rw [on_change_btn0_testBit]
    simp
  · intro s pressed
    rw [on_change_btn1_testBit]
    simp

/-! ## The classifier pass and the timer callback -/

/-- The classifier pass when the bits read as button 0 only. -/
theorem body_btn0 (s : KmState) (h : s.xbtn_events = BTN0_PRESSED) :
    km_btn_task_body s =
      { s with
        btn_press_timer := none
        km_status := km_status_t.KM_SCROLL_UP
        signals := s.signals + 1 } := by
  have h1 : s.xbtn_events ≠ BTN_BOTH_PRESSED := by rw [h]; decide
  unfold km_btn_task_body
  dsimp only
  rw [if_neg h1, if_pos h]

/-- The classifier pass when the bits read as button 1 only. -/
theorem body_btn1 (s : KmState) (h : s.xbtn_events = BTN1_PRESSED) :
    km_btn_task_body s =
      { s with
        btn_press_timer := none
        km_status := km_status_t.KM_SCROLL_DOWN
        signals := s.signals + 1 } := by
  have h1 : s.xbtn_events ≠ BTN_BOTH_PRESSED := by rw [h]; decide
  have h2 : s.xbtn_events ≠ BTN0_PRESSED := by rw [h]; decide
  unfold km_btn_task_body
  dsimp only
  rw [if_neg h1, if_neg h2, if_pos h]

/-- The classifier pass when the bits read as both buttons. -/
theorem body_both (s : KmState) (h : s.xbtn_events = BTN_BOTH_PRESSED) :
    km_btn_task_body s =
      if s.is_running = true then s
      else { s with
             btn_press_timer := some 2000
             timer_starts := s.timer_starts + 1
             is_running := true } := by
  unfold km_btn_task_body
  dsimp only
  rw [if_pos h]
  cases hr : s.is_running <;> simp

/-- The classifier pass when the bits read as anything else. -/
theorem body_default (s : KmState) (h3 : s.xbtn_events ≠ BTN_BOTH_PRESSED)
    (h0 : s.xbtn_events ≠ BTN0_PRESSED) (h1 : s.xbtn_events ≠ BTN1_PRESSED) :
    km_btn_task_body s = { s with btn_press_timer := none, is_running := false } := by
  unfold km_btn_task_body
  dsimp only
  rw [if_neg h3, if_neg h0, if_neg h1]

/-- C6, counterexample.  After a press of button 0 the bits read as button 0
only, and the classifier pass sets the scroll-up intent, not scroll-down; after
a press of button 1 the bits read as button 1 only and the pass sets
scroll-down, not scroll-up. -/
theorem single_button_direction_cex :
    (apply_edges [(sl_button_t.sl_button_btn0, true)] boot).xbtn_events = 1 ∧
    (km_btn_task_body (apply_edges [(sl_button_t.sl_button_btn0, true)] boot)).km_status
      ≠ km_status_t.KM_SCROLL_DOWN ∧
    (apply_edges [(sl_button_t.sl_button_btn1, true)] boot).xbtn_events = 2 ∧
    (km_btn_task_body (apply_edges [(sl_button_t.sl_button_btn1, true)] boot)).km_status
      ≠ km_status_t.KM_SCROLL_UP := by
  decide

/-- C6, amended.  In every state, a classifier pass that reads the bits as
button 0 only (bit 0) sets the scroll-up intent and one that reads button 1 only
(bit 1) sets the scroll-down intent; in both cases the external signal is raised
exactly once and the debounce timer is stopped. -/
theorem single_button_sets_scroll_intent (s : KmState) :
    (s.xbtn_events = BTN0_PRESSED →
      (km_btn_task_body s).km_status = km_status_t.KM_SCROLL_UP ∧
      (km_btn_task_body s).signals = s.signals + 1 ∧
      (km_btn_task_body s).btn_press_timer = none) ∧
    (s.xbtn_events = BTN1_PRESSED →
      (km_btn_task_body s).km_status = km_status_t.KM_SCROLL_DOWN ∧
      (km_btn_task_body s).signals = s.signals + 1 ∧
      (km_btn_task_body s).btn_press_timer = none) := by
  constructor
  · intro h
    rw [body_btn0 s h]
    exact ⟨rfl, rfl, rfl⟩
  · intro h
    rw [body_btn1 s h]
    exact ⟨rfl, rfl, rfl⟩

/-- Witness of `single_button_sets_scroll_intent`: a state with the timer armed,
read once with button 0 only and once with button 1 only. -/
theorem single_button_sets_scroll_intent_witness :
    (({ boot with xbtn_events := 1, btn_press_timer := some 700, is_running := true }
        : KmState).xbtn_events = BTN0_PRESSED ∧
      (km_btn_task_body
        { boot with xbtn_events := 1, btn_press_timer := some 700, is_running := true }
        ).km_status = km_status_t.KM_SCROLL_UP) ∧
    (({ boot with xbtn_events := 2, btn_press_timer := some 700, is_running := true }
        : KmState).xbtn_events = BTN1_PRESSED ∧
      (km_btn_task_body
        { boot with xbtn_events := 2, btn_press_timer := some 700, is_running := true }
        ).btn_press_timer = none) :=
  ⟨⟨by decide,
    ((single_button_sets_scroll_intent
      { boot with xbtn_events := 1, btn_press_timer := some 700, is_running := true }).1
      (by decide)).1⟩,
   ⟨by decide,
    ((single_button_sets_scroll_intent
      { boot with xbtn_events := 2, btn_press_timer := some 700, is_running := true }).2
      (by decide)).2.2⟩⟩

/-- C10, counterexample.  With no client subscribed, a press of button 0 and a
classifier pass leave the scroll-up intent pending, and the external-signal
event does not consume it.  After button 0 is released and button 1 pressed the
next pass replaces it by scroll-down.  Likewise, after button 0 and then button
1 are pressed, the pending scroll-up intent is replaced by send-string when the
timer armed by the second pass fires. -/
theorem pending_intent_overwritten_cex :
    (run sample_consts
      [Step.edge sl_button_t.sl_button_btn0 true true, Step.tick,
       Step.bt sl_bt_msg_t.system_external_signal,
       Step.edge sl_button_t.sl_button_btn0 false true,
       Step.edge sl_button_t.sl_button_btn1 true true] boot).km_status
      = km_status_t.KM_SCROLL_UP ∧
    (run sample_consts
      [Step.edge sl_button_t.sl_button_btn0 true true, Step.tick,
       Step.bt sl_bt_msg_t.system_external_signal,
       Step.edge sl_button_t.sl_button_btn0 false true,
       Step.edge sl_button_t.sl_button_btn1 true true,
       Step.tick] boot).km_status
      = km_status_t.KM_SCROLL_DOWN ∧
    (run sample_consts
      [Step.edge sl_button_t.sl_button_btn0 true true, Step.tick,
       Step.bt sl_bt_msg_t.system_external_signal,
       Step.edge sl_button_t.sl_button_btn1 true true, Step.tick] boot).km_status
      = km_status_t.KM_SCROLL_UP ∧
    (run sample_consts
      [Step.edge sl_button_t.sl_button_btn0 true true, Step.tick,
       Step.bt sl_bt_msg_t.system_external_signal,
       Step.edge sl_button_t.sl_button_btn1 true true, Step.tick,
       Step.wait 2000 true] boot).km_status
      = km_status_t.KM_SEND_STRING := by
  decide

/-- C10, amended.  In every state: a classifier pass that reads anything but a
single button leaves the intent as it is, and neither a classifier pass nor the
timer callback turns a pending intent into idle.  A pass that reads a single
button sets that button's scroll intent whatever intent was pending, and stops
the debounce timer; the timer callback sets the send-string intent whatever
intent was pending. -/
theorem intent_last_writer_wins (s : KmState) :
    (s.xbtn_events ≠ BTN0_PRESSED → s.xbtn_events ≠ BTN1_PRESSED →
      (km_btn_task_body s).km_status = s.km_status) ∧
    (s.km_status ≠ km_status_t.KM_IDLE →
      (km_btn_task_body s).km_status ≠ km_status_t.KM_IDLE) ∧
    (s.xbtn_events = BTN0_PRESSED →
      (km_btn_task_body s).km_status = km_status_t.KM_SCROLL_UP ∧
      (km_btn_task_body s).btn_press_timer = none) ∧
    (s.xbtn_events = BTN1_PRESSED →
      (km_btn_task_body s).km_status = km_status_t.KM_SCROLL_DOWN ∧
      (km_btn_task_body s).btn_press_timer = none) ∧
    (∀ xResult : Bool,
      (btn_press_timer_cb xResult s).km_status = km_status_t.KM_SEND_STRING) := by
  refine ⟨?_, ?_, ?_, ?_, ?_⟩
  · intro h0 h1
    by_cases h3 : s.xbtn_events = BTN_BOTH_PRESSED
    · rw [body_both s h3]
      split_ifs <;> rfl
    · rw [body_default s h3 h0 h1]
  · intro hi
    by_cases h0 : s.xbtn_events = BTN0_PRESSED
    · rw [body_btn0 s h0]
      simp
    · by_cases h1 : s.xbtn_events = BTN1_PRESSED
      · rw [body_btn1 s h1]
        simp
      · by_cases h3 : s.xbtn_events = BTN_BOTH_PRESSED
        · rw [body_both s h3]
          split_ifs
          · exact hi
          · exact hi
        · rw [body_default s h3 h0 h1]
          exact hi
  · intro h
    rw [body_btn0 s h]
    exact ⟨rfl, rfl⟩
  · intro h
    rw [body_btn1 s h]
    exact ⟨rfl, rfl⟩
  · intro xResult
    cases xResult <;> rfl

/-- Witness of `intent_last_writer_wins`: a state with the send-string intent
pending; read with both buttons the intent stays, read with button 0 only it
becomes scroll-up. -/
theorem intent_last_writer_wins_witness :
    (({ boot with xbtn_events := 3, km_status := km_status_t.KM_SEND_STRING }
        : KmState).xbtn_events ≠ BTN0_PRESSED ∧
      ({ boot with xbtn_events := 3, km_status := km_status_t.KM_SEND_STRING }
        : KmState).xbtn_events ≠ BTN1_PRESSED ∧
      (km_btn_task_body
        { boot with xbtn_events := 3, km_status := km_status_t.KM_SEND_STRING }).km_status
        = km_status_t.KM_SEND_STRING) ∧
    (({ boot with xbtn_events := 1, km_status := km_status_t.KM_SEND_STRING }
        : KmState).xbtn_events = BTN0_PRESSED ∧
      (km_btn_task_body
        { boot with xbtn_events := 1, km_status := km_status_t.KM_SEND_STRING }).km_status
        = km_status_t.KM_SCROLL_UP) :=
  ⟨⟨by decide, by decide,
    (intent_last_writer_wins
      { boot with xbtn_events := 3, km_status := km_status_t.KM_SEND_STRING }).1
      (by decide) (by decide)⟩,
   ⟨by decide,
    ((intent_last_writer_wins
      { boot with xbtn_events := 1, km_status := km_status_t.KM_SEND_STRING }).2.2.1
      (by decide)).1⟩⟩

/-! ## What each step leaves alone -/

/-- A button change writes only the event group. -/
theorem on_change_frame (handle : sl_button_t) (pressed xResult : Bool) (s : KmState) :
    (sl_button_on_change handle pressed xResult s).btn_press_timer = s.btn_press_timer ∧
    (sl_button_on_change handle pressed xResult s).is_running = s.is_running ∧
    (sl_button_on_change handle pressed xResult s).timer_starts = s.timer_starts ∧
    (sl_button_on_change handle pressed xResult s).cb_calls = s.cb_calls ∧
    (sl_button_on_change handle pressed xResult s).km_status = s.km_status := by
  unfold sl_button_on_change
  dsimp only
  split_ifs <;> exact ⟨rfl, rfl, rfl, rfl, rfl⟩

/-- A Bluetooth event writes neither the event group nor the variables of the
classifier task. -/
theorem bt_event_frame (k : BtConsts) (evt : sl_bt_msg_t) (s : KmState) :
    (sl_bt_on_event k evt s).btn_press_timer = s.btn_press_timer ∧
    (sl_bt_on_event k evt s).is_running = s.is_running ∧
    (sl_bt_on_event k evt s).timer_starts = s.timer_starts ∧
    (sl_bt_on_event k evt s).cb_calls = s.cb_calls ∧
    (sl_bt_on_event k evt s).xbtn_events = s.xbtn_events := by
  cases evt with
  | system_boot => exact ⟨rfl, rfl, rfl, rfl, rfl⟩
  | connection_opened => exact ⟨rfl, rfl, rfl, rfl, rfl⟩
  | connection_closed => exact ⟨rfl, rfl, rfl, rfl, rfl⟩
  | sm_bonded => exact ⟨rfl, rfl, rfl, rfl, rfl⟩
  | sm_bonding_failed => exact ⟨rfl, rfl, rfl, rfl, rfl⟩
  | other_event => exact ⟨rfl, rfl, rfl, rfl, rfl⟩
  | gatt_server_characteristic_status c f v =>
    unfold sl_bt_on_event
    dsimp only
    split_ifs <;> exact ⟨rfl, rfl, rfl, rfl, rfl⟩
  | system_external_signal =>
    unfold sl_bt_on_event
    dsimp only
    split_ifs
    · obtain ⟨_, _, h3, h4, h5, _, _, _, h9, h10⟩ := send_eetree_string_control k s
      exact ⟨h5, h4, h9, h10, h3⟩
    · obtain ⟨_, _, h3, h4, h5, _, _, _, h9, h10⟩ := scroll_with_distance_control k 0x01 s
      exact ⟨h5, h4, h9, h10, h3⟩
    · obtain ⟨_, _, h3, h4, h5, _, _, _, h9, h10⟩ := scroll_with_distance_control k 0xFF s
      exact ⟨h5, h4, h9, h10, h3⟩
    · exact ⟨rfl, rfl, rfl, rfl, rfl⟩

/-- A classifier pass never runs the callback; it leaves the timer as it is,
stops it, or arms it for 2000 ms, and it arms it only by a counted start. -/
theorem body_timer (s : KmState) :
    (km_btn_task_body s).cb_calls = s.cb_calls ∧
    ((km_btn_task_body s).btn_press_timer = s.btn_press_timer ∧
        (km_btn_task_body s).timer_starts = s.timer_starts ∨
      (km_btn_task_body s).btn_press_timer = none ∧
        (km_btn_task_body s).timer_starts = s.timer_starts ∨
      (km_btn_task_body s).btn_press_timer = some 2000 ∧
        (km_btn_task_body s).timer_starts = s.timer_starts + 1) := by
  unfold km_btn_task_body
  dsimp only
  split_ifs
  · exact ⟨rfl, Or.inr (Or.inr ⟨rfl, rfl⟩)⟩
  · exact ⟨rfl, Or.inl ⟨rfl, rfl⟩⟩
  · exact ⟨rfl, Or.inr (Or.inl ⟨rfl, rfl⟩)⟩
  · exact ⟨rfl, Or.inr (Or.inl ⟨rfl, rfl⟩)⟩
  · exact ⟨rfl, Or.inr (Or.inl ⟨rfl, rfl⟩)⟩

/-- The callback starts no timer and runs once. -/
theorem cb_frame (xResult : Bool) (s : KmState) :
    (btn_press_timer_cb xResult s).btn_press_timer = s.btn_press_timer ∧
    (btn_press_timer_cb xResult s).is_running = s.is_running ∧
    (btn_press_timer_cb xResult s).timer_starts = s.timer_starts ∧
    (btn_press_timer_cb xResult s).cb_calls = s.cb_calls + 1 := by
  cases xResult <;> exact ⟨rfl, rfl, rfl, rfl⟩

/-- With the timer stopped, the passing of time changes nothing. -/
theorem delay_stopped (ms : Nat) (xResult : Bool) (s : KmState)
    (h : s.btn_press_timer = none) : delay ms xResult s = s := by
  unfold delay
  rw [h]

/-- With the timer armed for more than `ms`, the passing of `ms` milliseconds
only decreases the remaining time. -/
theorem delay_before_expiry (ms : Nat) (xResult : Bool) (s : KmState) (r : Nat)
    (h : s.btn_press_timer = some r) (hr : ms < r) :
    delay ms xResult s = { s with btn_press_timer := some (r - ms) } := by
  unfold delay
  rw [h]
  dsimp only
  rw [if_neg (by omega)]

/-- With the timer armed for at most `ms`, the passing of `ms` milliseconds
stops the timer and runs the callback. -/
theorem delay_expiry (ms : Nat) (xResult : Bool) (s : KmState) (r : Nat)
    (h : s.btn_press_timer = some r) (hr : r ≤ ms) :
    delay ms xResult s = btn_press_timer_cb xResult { s with btn_press_timer := none } := by
  unfold delay
  rw [h]
  dsimp only
  rw [if_pos hr]

theorem run_nil (k : BtConsts) (s : KmState) : run k [] s = s := rfl

theorem run_cons (k : BtConsts) (e : Step) (tr : List Step) (s : KmState) :
    run k (e :: tr) s = run k tr (step k e s) := rfl

theorem run_append (k : BtConsts) (tr1 tr2 : List Step) (s : KmState) :
    run k (tr1 ++ tr2) s = run k tr2 (run k tr1 s) := by
  simp [run, List.foldl_append]

/-! ## The debounce window -/

/-- While less than 2000 ms have passed since every arming of the timer, no
step runs the callback.  Here `e` is the time already passed; an armed timer
with `r` ms left satisfies `2000 ≤ r + e`. -/
theorem run_within_window (k : BtConsts) (tr : List Step) :
    ∀ (st : KmState) (e : Nat),
      (∀ r, st.btn_press_timer = some r → 2000 ≤ r + e) →
      e + elapsed tr < 2000 →
      (run k tr st).cb_calls = st.cb_calls ∧
      (∀ r, (run k tr st).btn_press_timer = some r → 2000 ≤ r + (e + elapsed tr)) := by
  induction tr with
  | nil =>
    intro st e hinv _
    exact ⟨rfl, by simpa [elapsed, run_nil] using hinv⟩
  | cons e0 tr ih =>
    intro st e hinv hlt
    rw [run_cons]
    cases e0 with
    | edge handle pressed xResult =>
      have hf := on_change_frame handle pressed xResult st
      have hel : elapsed (Step.edge handle pressed xResult :: tr) = elapsed tr := rfl
      rw [hel] at hlt ⊢
      have h := ih (step k (Step.edge handle pressed xResult) st) e
        (by intro r hr; apply hinv; rw [← hf.1]; exact hr) hlt
      exact ⟨h.1.trans hf.2.2.2.1, h.2⟩
    | tick =>
      have hf := body_timer st
      have hel : elapsed (Step.tick :: tr) = elapsed tr := rfl
      rw [hel] at hlt ⊢
      have h := ih (step k Step.tick st) e
        (by
          intro r hr
          change (km_btn_task_body st).btn_press_timer = some r at hr
          rcases hf.2 with h1 | h1 | h1
          · apply hinv; rw [← h1.1]; exact hr
          · rw [h1.1] at hr; cases hr
          · rw [h1.1] at hr
            cases hr
            omega) hlt
      exact ⟨h.1.trans hf.1, h.2⟩
    | wait ms xResult =>
      have hel : elapsed (Step.wait ms xResult :: tr) = ms + elapsed tr := rfl
      rw [hel] at hlt ⊢
      cases htm : st.btn_press_timer with
      | none =>
        have hs : step k (Step.wait ms xResult) st = st := delay_stopped ms xResult st htm
        rw [hs]
        have h := ih st (e + ms) (by intro r hr; rw [htm] at hr; cases hr) (by omega)
        refine ⟨h.1, ?_⟩
        intro r hr
        have := h.2 r hr
        omega
      | some r0 =>
        have h0 := hinv r0 htm
        have hs : step k (Step.wait ms xResult) st
            = { st with btn_press_timer := some (r0 - ms) } :=
          delay_before_expiry ms xResult st r0 htm (by omega)
        rw [hs]
        have h := ih { st with btn_press_timer := some (r0 - ms) } (e + ms)
          (by
            intro r hr
            have : r0 - ms = r := by simpa using hr
            omega) (by omega)
        refine ⟨h.1, ?_⟩
        intro r hr
        have := h.2 r hr
        omega
    | bt evt =>
      have hf := bt_event_frame k evt st
      have hel : elapsed (Step.bt evt :: tr) = elapsed tr := rfl
      rw [hel] at hlt ⊢
      have h := ih (step k (Step.bt evt) st) e
        (by intro r hr; apply hinv; rw [← hf.1]; exact hr) hlt
      exact ⟨h.1.trans hf.2.2.2.1, h.2⟩

/-- The number of timer starts never decreases, and a step taken with the timer
stopped that starts no timer leaves it stopped and runs no callback. -/
theorem step_after_stop (k : BtConsts) (e : Step) (st : KmState) :
    st.timer_starts ≤ (step k e st).timer_starts ∧
    (st.btn_press_timer = none → (step k e st).timer_starts = st.timer_starts →
      (step k e st).btn_press_timer = none ∧ (step k e st).cb_calls = st.cb_calls) := by
  cases e with
  | edge handle pressed xResult =>
    have hf := on_change_frame handle pressed xResult st
    refine ⟨le_of_eq hf.2.2.1.symm, fun h _ => ⟨hf.1.trans h, hf.2.2.2.1⟩⟩
  | tick =>
    have hf := body_timer st
    change st.timer_starts ≤ (km_btn_task_body st).timer_starts ∧
      (st.btn_press_timer = none → (km_btn_task_body st).timer_starts = st.timer_starts →
        (km_btn_task_body st).btn_press_timer = none ∧
        (km_btn_task_body st).cb_calls = st.cb_calls)
    rcases hf.2 with h1 | h1 | h1
    · exact ⟨le_of_eq h1.2.symm, fun h _ => ⟨h1.1.trans h, hf.1⟩⟩
    · exact ⟨le_of_eq h1.2.symm, fun _ _ => ⟨h1.1, hf.1⟩⟩
    · refine ⟨by omega, fun _ h => ?_⟩
      omega
  | wait ms xResult =>
    change st.timer_starts ≤ (delay ms xResult st).timer_starts ∧
      (st.btn_press_timer = none → (delay ms xResult st).timer_starts = st.timer_starts →
        (delay ms xResult st).btn_press_timer = none ∧
        (delay ms xResult st).cb_calls = st.cb_calls)
    constructor
    · cases htm : st.btn_press_timer with
      | none => rw [delay_stopped ms xResult st htm]
      | some r =>
        by_cases hr : r ≤ ms
        · rw [delay_expiry ms xResult st r htm hr]
          exact le_of_eq (cb_frame xResult { st with btn_press_timer := none }).2.2.1.symm
        · rw [delay_before_expiry ms xResult st r htm (by omega)]
    · intro h _
      rw [delay_stopped ms xResult st h]
      exact ⟨h, rfl⟩
  | bt evt =>
    have hf := bt_event_frame k evt st
    refine ⟨le_of_eq hf.2.2.1.symm, fun h _ => ⟨hf.1.trans h, hf.2.2.2.1⟩⟩

/-- Once the timer is stopped, the callback runs again only after a new start of
the timer. -/
theorem run_after_stop (k : BtConsts) (tr : List Step) :
    ∀ st : KmState,
      st.timer_starts ≤ (run k tr st).timer_starts ∧
      (st.btn_press_timer = none → (run k tr st).timer_starts = st.timer_starts →
        (run k tr st).btn_press_timer = none ∧ (run k tr st).cb_calls = st.cb_calls) := by
  induction tr with
  | nil => intro st; exact ⟨le_refl _, fun h _ => ⟨h, rfl⟩⟩
  | cons e tr ih =>
    intro st
    rw [run_cons]
    have hs := step_after_stop k e st
    have hr := ih (step k e st)
    refine ⟨le_trans hs.1 hr.1, fun hnone heq => ?_⟩
    have h1 : (step k e st).timer_starts = st.timer_starts := by omega
    have h2 := hs.2 hnone h1
    have h3 := hr.2 h2.1 (by omega)
    exact ⟨h3.1, h3.2.trans h2.2⟩

/-- A step that does not run the callback does not produce the send-string
intent; the number of callback runs never decreases. -/
theorem step_send_string (k : BtConsts) (e : Step) (st : KmState) :
    st.cb_calls ≤ (step k e st).cb_calls ∧
    ((step k e st).cb_calls = st.cb_calls →
      st.km_status ≠ km_status_t.KM_SEND_STRING →
      (step k e st).km_status ≠ km_status_t.KM_SEND_STRING) := by
  cases e with
  | edge handle pressed xResult =>
    have hf := on_change_frame handle pressed xResult st
    refine ⟨le_of_eq hf.2.2.2.1.symm, fun _ h => ?_⟩
    change (sl_button_on_change handle pressed xResult st).km_status
      ≠ km_status_t.KM_SEND_STRING
    rw [hf.2.2.2.2]
    exact h
  | tick =>
    refine ⟨le_of_eq (body_timer st).1.symm, fun _ h => ?_⟩
    change (km_btn_task_body st).km_status ≠ km_status_t.KM_SEND_STRING
    unfold km_btn_task_body
    dsimp only
    split_ifs
    · exact h
    · exact h
    · simp
    · simp
    · exact h
  | wait ms xResult =>
    change st.cb_calls ≤ (delay ms xResult st).cb_calls ∧
      ((delay ms xResult st).cb_calls = st.cb_calls →
        st.km_status ≠ km_status_t.KM_SEND_STRING →
        (delay ms xResult st).km_status ≠ km_status_t.KM_SEND_STRING)
    cases htm : st.btn_press_timer with
    | none =>
      rw [delay_stopped ms xResult st htm]
      exact ⟨le_refl _, fun _ h => h⟩
    | some r =>
      by_cases hr : r ≤ ms
      · rw [delay_expiry ms xResult st r htm hr]
        have hc := (cb_frame xResult { st with btn_press_timer := none }).2.2.2
        have hc2 : (btn_press_timer_cb xResult { st with btn_press_timer := none }).cb_calls
            = st.cb_calls + 1 := hc
        refine ⟨by omega, fun h _ => ?_⟩
        omega
      · rw [delay_before_expiry ms xResult st r htm (by omega)]
        exact ⟨le_refl _, fun _ h => h⟩
  | bt evt =>
    have hf := bt_event_frame k evt st
    refine ⟨le_of_eq hf.2.2.2.1.symm, fun _ h => ?_⟩
    change (sl_bt_on_event k evt st).km_status ≠ km_status_t.KM_SEND_STRING
    cases evt with
    | system_boot => exact h
    | connection_opened => exact h
    | connection_closed => exact h
    | sm_bonded => exact h
    | sm_bonding_failed => exact h
    | other_event => exact h
    | gatt_server_characteristic_status c f v =>
      unfold sl_bt_on_event
      dsimp only
      split_ifs <;> exact h
    | system_external_signal =>
      unfold sl_bt_on_event
      dsimp only
      split_ifs <;> first | exact h | simp

/-- A pass that reads something other than both buttons leaves the timer
stopped and starts no timer. -/
theorem body_not_both (s : KmState) (h : s.xbtn_events ≠ BTN_BOTH_PRESSED) :
    (km_btn_task_body s).btn_press_timer = none ∧
    (km_btn_task_body s).timer_starts = s.timer_starts := by
  unfold km_btn_task_body
  dsimp only
  rw [if_neg h]
  split_ifs <;> exact ⟨rfl, rfl⟩

/-- A run that does not run the callback does not produce the send-string
intent. -/
theorem run_send_string (k : BtConsts) (tr : List Step) :
    ∀ st : KmState,
      st.cb_calls ≤ (run k tr st).cb_calls ∧
      ((run k tr st).cb_calls = st.cb_calls →
        st.km_status ≠ km_status_t.KM_SEND_STRING →
        (run k tr st).km_status ≠ km_status_t.KM_SEND_STRING) := by
  induction tr with
  | nil => intro st; exact ⟨le_refl _, fun _ h => h⟩
  | cons e tr ih =>
    intro st
    rw [run_cons]
    have hs := step_send_string k e st
    have hr := ih (step k e st)
    refine ⟨le_trans hs.1 hr.1, fun heq hne => ?_⟩
    have h1 : (step k e st).cb_calls = st.cb_calls := by omega
    exact hr.2 (by omega) (hs.2 h1 hne)

/-- C3.  Let a classifier pass read both buttons with the running flag clear, so
that it arms the timer for 2000 ms, and let any steps taking less than 2000 ms
in total follow, after which a pass reads something other than both buttons.
Then that pass leaves the timer stopped, the callback has not run since the
arming, and it does not run afterwards unless the timer is started anew; so
unless the intent was send-string before, it is not send-string at any of these
points. -/
theorem short_hold_never_fires (k : BtConsts) (s : KmState) (tr tr2 : List Step)
    (hboth : s.xbtn_events = BTN_BOTH_PRESSED) (hrun : s.is_running = false)
    (ht : elapsed tr < 2000)
    (hrel : (run k tr (km_btn_task_body s)).xbtn_events ≠ BTN_BOTH_PRESSED) :
    (km_btn_task_body s).btn_press_timer = some 2000 ∧
    (km_btn_task_body s).timer_starts = s.timer_starts + 1 ∧
    (km_btn_task_body (run k tr (km_btn_task_body s))).btn_press_timer = none ∧
    (km_btn_task_body (run k tr (km_btn_task_body s))).cb_calls = s.cb_calls ∧
    (s.km_status ≠ km_status_t.KM_SEND_STRING →
      (km_btn_task_body (run k tr (km_btn_task_body s))).km_status
        ≠ km_status_t.KM_SEND_STRING) ∧
    ((run k tr2 (km_btn_task_body (run k tr (km_btn_task_body s)))).timer_starts
        = (km_btn_task_body (run k tr (km_btn_task_body s))).timer_starts →
      (run k tr2 (km_btn_task_body (run k tr (km_btn_task_body s)))).cb_calls = s.cb_calls ∧
      (s.km_status ≠ km_status_t.KM_SEND_STRING →
        (run k tr2 (km_btn_task_body (run k tr (km_btn_task_body s)))).km_status
          ≠ km_status_t.KM_SEND_STRING)) := by
  have harm : km_btn_task_body s =
      { s with btn_press_timer := some 2000, timer_starts := s.timer_starts + 1,
               is_running := true } := by
    rw [body_both s hboth, if_neg (by rw [hrun]; decide)]
  have hwin := run_within_window k tr (km_btn_task_body s) 0
    (by
      intro r hr
      rw [harm] at hr
      have : 2000 = r := by simpa using hr
      omega)
    (by omega)
  have hcb1 : (run k tr (km_btn_task_body s)).cb_calls = s.cb_calls := by
    rw [hwin.1, harm]
  -- the pass that reads something other than both buttons
  have hstop : (km_btn_task_body (run k tr (km_btn_task_body s))).btn_press_timer = none :=
    (body_not_both _ hrel).1
  have hcb2 : (km_btn_task_body (run k tr (km_btn_task_body s))).cb_calls = s.cb_calls := by
    rw [(body_timer _).1, hcb1]
  have hrun3 : run k (tr ++ [Step.tick]) (km_btn_task_body s)
      = km_btn_task_body (run k tr (km_btn_task_body s)) := by
    rw [run_append]
    rfl
  have hks : (km_btn_task_body s).km_status = s.km_status := by rw [harm]
  have hcs : (km_btn_task_body s).cb_calls = s.cb_calls := by rw [harm]
  have hint : s.km_status ≠ km_status_t.KM_SEND_STRING →
      (km_btn_task_body (run k tr (km_btn_task_body s))).km_status
        ≠ km_status_t.KM_SEND_STRING := by
    intro hne
    rw [← hrun3]
    apply (run_send_string k (tr ++ [Step.tick]) (km_btn_task_body s)).2
    · rw [hrun3, hcb2, hcs]
    · rw [hks]
      exact hne
  refine ⟨by rw [harm], by rw [harm], hstop, hcb2, hint, ?_⟩
  intro heq
  have hafter := (run_after_stop k tr2
    (km_btn_task_body (run k tr (km_btn_task_body s)))).2 hstop heq
  refine ⟨hafter.2.trans hcb2, fun hne => ?_⟩
  exact (run_send_string k tr2
    (km_btn_task_body (run k tr (km_btn_task_body s)))).2 hafter.2 (hint hne)

/-- Witness of `short_hold_never_fires`: both buttons are held, the timer is
armed, button 1 is released 1950 ms later, and 5000 more milliseconds pass. -/
theorem short_hold_never_fires_witness :
    ({ boot with xbtn_events := 3 } : KmState).xbtn_events = BTN_BOTH_PRESSED ∧
    ({ boot with xbtn_events := 3 } : KmState).is_running = false ∧
    elapsed [Step.wait 50 true, Step.tick, Step.wait 1900 true,
             Step.edge sl_button_t.sl_button_btn1 false true] < 2000 ∧
    (run sample_consts
        [Step.wait 50 true, Step.tick, Step.wait 1900 true,
         Step.edge sl_button_t.sl_button_btn1 false true]
        (km_btn_task_body { boot with xbtn_events := 3 })).xbtn_events
      ≠ BTN_BOTH_PRESSED ∧
    (km_btn_task_body (run sample_consts
        [Step.wait 50 true, Step.tick, Step.wait 1900 true,
         Step.edge sl_button_t.sl_button_btn1 false true]
        (km_btn_task_body { boot with xbtn_events := 3 }))).btn_press_timer = none ∧
    (km_btn_task_body (run sample_consts
        [Step.wait 50 true, Step.tick, Step.wait 1900 true,
         Step.edge sl_button_t.sl_button_btn1 false true]
        (km_btn_task_body { boot with xbtn_events := 3 }))).cb_calls = 0 :=
  ⟨by decide, by decide, by decide, by decide,
   (short_hold_never_fires sample_consts { boot with xbtn_events := 3 }
      [Step.wait 50 true, Step.tick, Step.wait 1900 true,
       Step.edge sl_button_t.sl_button_btn1 false true]
      [Step.wait 5000 true]
      (by decide) (by decide) (by decide) (by decide)).2.2.1,
   (short_hold_never_fires sample_consts { boot with xbtn_events := 3 }
      [Step.wait 50 true, Step.tick, Step.wait 1900 true,
       Step.edge sl_button_t.sl_button_btn1 false true]
      [Step.wait 5000 true]
      (by decide) (by decide) (by decide) (by decide)).2.2.2.1⟩

/-! ## Holding both buttons -/

theorem hold_ticks_add (a b : Nat) : hold_ticks (a + b) = hold_ticks a ++ hold_ticks b := by
  induction a with
  | zero => simp [hold_ticks]
  | succ a ih =>
    have : a + 1 + b = (a + b) + 1 := by omega
    rw [this, hold_ticks, hold_ticks, ih]
    rfl

/-- With both buttons read, the running flag set and the timer armed for more
than `50 * j` ms, `j` polling periods only decrease the remaining time. -/
theorem hold_ticks_armed (k : BtConsts) (j : Nat) :
    ∀ (st : KmState) (r : Nat),
      st.xbtn_events = BTN_BOTH_PRESSED → st.is_running = true →
      st.btn_press_timer = some r → 50 * j < r →
      run k (hold_ticks j) st = { st with btn_press_timer := some (r - 50 * j) } := by
  induction j with
  | zero =>
    intro st r _ _ ht _
    rw [hold_ticks, run_nil]
    cases st
    simp only [Nat.mul_zero, Nat.sub_zero] at ht ⊢
    rw [← ht]
  | succ j ih =>
    intro st r hb hr ht hlt
    rw [hold_ticks, run_cons, run_cons]
    have h1 : step k Step.tick st = st := by
      change km_btn_task_body st = st
      rw [body_both st hb, if_pos hr]
    rw [h1]
    have h2 : step k (Step.wait 50 true) st = { st with btn_press_timer := some (r - 50) } :=
      delay_before_expiry 50 true st r ht (by omega)
    rw [h2, ih { st with btn_press_timer := some (r - 50) } (r - 50) hb hr rfl (by omega)]
    have : r - 50 - 50 * j = r - 50 * (j + 1) := by omega
    simp only [this]

/-- With both buttons read, the running flag set and the timer stopped, polling
changes nothing, however long it goes on. -/
theorem hold_ticks_stale_flag (k : BtConsts) (n : Nat) :
    ∀ st : KmState,
      st.xbtn_events = BTN_BOTH_PRESSED → st.is_running = true →
      st.btn_press_timer = none →
      run k (hold_ticks n) st = st := by
  induction n with
  | zero => intro st _ _ _; rfl
  | succ n ih =>
    intro st hb hr ht
    rw [hold_ticks, run_cons, run_cons]
    have h1 : step k Step.tick st = st := by
      change km_btn_task_body st = st
      rw [body_both st hb, if_pos hr]
    rw [h1]
    have h2 : step k (Step.wait 50 true) st = st := delay_stopped 50 true st ht
    rw [h2]
    exact ih st hb hr ht

/-- With both buttons read and the running flag clear, the first polling period
arms the timer and leaves 1950 ms on it. -/
theorem first_period_arms (k : BtConsts) (s : KmState)
    (hb : s.xbtn_events = BTN_BOTH_PRESSED) (hr : s.is_running = false) :
    run k (hold_ticks 1) s =
      { s with btn_press_timer := some 1950, timer_starts := s.timer_starts + 1,
               is_running := true } := by
  have harm : km_btn_task_body s =
      { s with btn_press_timer := some 2000, timer_starts := s.timer_starts + 1,
               is_running := true } := by
    rw [body_both s hb, if_neg (by rw [hr]; decide)]
  rw [hold_ticks, hold_ticks, run_cons, run_cons, run_nil]
  change delay 50 true (km_btn_task_body s) = _
  rw [harm]
  exact delay_before_expiry 50 true
    { s with btn_press_timer := some 2000, timer_starts := s.timer_starts + 1,
             is_running := true } 2000 rfl (by omega)

/-- With both buttons read, the running flag set and at most 50 ms left on the
timer, the next polling period runs the callback. -/
theorem last_period_fires (k : BtConsts) (st : KmState) (r : Nat)
    (hb : st.xbtn_events = BTN_BOTH_PRESSED) (hr : st.is_running = true)
    (ht : st.btn_press_timer = some r) (hle : r ≤ 50) :
    run k (hold_ticks 1) st
      = btn_press_timer_cb true { st with btn_press_timer := none } := by
  rw [hold_ticks, hold_ticks, run_cons, run_cons, run_nil]
  have h1 : step k Step.tick st = st := by
    change km_btn_task_body st = st
    rw [body_both st hb, if_pos hr]
  rw [h1]
  exact delay_expiry 50 true st r ht hle

/-- Holding both buttons from a state whose running flag is clear: forty
polling periods (2000 ms) run the callback exactly once, which sets the
send-string intent and clears both button bits. -/
theorem long_hold_from_clear_flag (k : BtConsts) (s : KmState)
    (hb : s.xbtn_events = BTN_BOTH_PRESSED) (hr : s.is_running = false) :
    (run k (hold_ticks 40) s).cb_calls = s.cb_calls + 1 ∧
    (run k (hold_ticks 40) s).km_status = km_status_t.KM_SEND_STRING ∧
    (run k (hold_ticks 40) s).xbtn_events = 0 ∧
    (run k (hold_ticks 40) s).btn_press_timer = none := by
  have hsplit : hold_ticks 40 = hold_ticks 1 ++ (hold_ticks 38 ++ hold_ticks 1) := by
    rw [← hold_ticks_add, ← hold_ticks_add]
  have h2 := hold_ticks_armed k 38
    { s with btn_press_timer := some 1950, timer_starts := s.timer_starts + 1,
             is_running := true } 1950 hb rfl rfl (by omega)
  have h3 : run k (hold_ticks 40) s =
      btn_press_timer_cb true
        { s with btn_press_timer := none, timer_starts := s.timer_starts + 1,
                 is_running := true } := by
    rw [hsplit, run_append, run_append, first_period_arms k s hb hr, h2]
    exact last_period_fires k
      { s with btn_press_timer := some (1950 - 50 * 38),
               timer_starts := s.timer_starts + 1, is_running := true }
      (1950 - 50 * 38) hb rfl rfl (by omega)
  rw [h3]
  refine ⟨rfl, rfl, ?_, rfl⟩
  change xEventGroupClearBits s.xbtn_events BTN_BOTH_PRESSED = 0
  rw [hb]
  decide

/-- C2, the code at the failing input.  Both buttons are pressed and the timer
is armed; button 1 is released for one polling period, which stops the timer but
leaves the running flag set, and is pressed again.  From then on every pass
reads both buttons, yet after 41 polling periods (2050 ms), and after any number
of them, the timer has not been started again, the callback has not run and the
intent is not send-string. -/
theorem rehold_after_single_button_never_fires :
    (run sample_consts release_and_repress boot).xbtn_events = BTN_BOTH_PRESSED ∧
    (run sample_consts release_and_repress boot).is_running = true ∧
    (run sample_consts release_and_repress boot).btn_press_timer = none ∧
    (run sample_consts (release_and_repress ++ hold_ticks 41) boot).cb_calls = 0 ∧
    (run sample_consts (release_and_repress ++ hold_ticks 41) boot).km_status
      = km_status_t.KM_SCROLL_UP ∧
    (run sample_consts (release_and_repress ++ hold_ticks 41) boot).xbtn_events
      = BTN_BOTH_PRESSED ∧
    (∀ n : Nat,
      (run sample_consts (release_and_repress ++ hold_ticks n) boot).cb_calls = 0 ∧
      (run sample_consts (release_and_repress ++ hold_ticks n) boot).timer_starts = 1 ∧
      (run sample_consts (release_and_repress ++ hold_ticks n) boot).km_status
        ≠ km_status_t.KM_SEND_STRING) := by
  have hb : (run sample_consts release_and_repress boot).xbtn_events = BTN_BOTH_PRESSED := by
    decide
  have hr : (run sample_consts release_and_repress boot).is_running = true := by decide
  have ht : (run sample_consts release_and_repress boot).btn_press_timer = none := by decide
  have hall : ∀ n : Nat, run sample_consts (release_and_repress ++ hold_ticks n) boot
      = run sample_consts release_and_repress boot := by
    intro n
    rw [run_append, hold_ticks_stale_flag sample_consts n _ hb hr ht]
  refine ⟨hb, hr, ht, ?_, ?_, ?_, ?_⟩
  · rw [hall]; decide
  · rw [hall]; decide
  · rw [hall]; exact hb
  · intro n
    rw [hall]
    decide

/-! ## Where the send-string intent comes from -/

/-- A classifier pass does not produce the send-string intent. -/
theorem body_not_send_string (s : KmState)
    (h : s.km_status ≠ km_status_t.KM_SEND_STRING) :
    (km_btn_task_body s).km_status ≠ km_status_t.KM_SEND_STRING :=
  (step_send_string sample_consts Step.tick s).2 (body_timer s).1 h

/-- C11.  If the intent is not send-string before a step and is send-string
after it, the step is a passing of time in which the armed timer expires, and
its effect is that of the timer callback.  In particular neither a classifier
pass, nor a button change, nor a Bluetooth event produces the send-string
intent. -/
theorem send_string_only_from_callback (k : BtConsts) (e : Step) (st : KmState)
    (h0 : st.km_status ≠ km_status_t.KM_SEND_STRING) :
    ((step k e st).km_status = km_status_t.KM_SEND_STRING →
      ∃ ms xResult r, e = Step.wait ms xResult ∧ st.btn_press_timer = some r ∧ r ≤ ms ∧
        step k e st = btn_press_timer_cb xResult { st with btn_press_timer := none }) ∧
    (km_btn_task_body st).km_status ≠ km_status_t.KM_SEND_STRING ∧
    (∀ handle pressed xResult,
      (sl_button_on_change handle pressed xResult st).km_status
        ≠ km_status_t.KM_SEND_STRING) ∧
    (∀ evt, (sl_bt_on_event k evt st).km_status ≠ km_status_t.KM_SEND_STRING) := by
  have hedge : ∀ handle pressed xResult,
      (sl_button_on_change handle pressed xResult st).km_status
        ≠ km_status_t.KM_SEND_STRING := by
    intro handle pressed xResult
    rw [(on_change_frame handle pressed xResult st).2.2.2.2]
    exact h0
  have hbt : ∀ evt, (sl_bt_on_event k evt st).km_status ≠ km_status_t.KM_SEND_STRING := by
    intro evt
    exact (step_send_string k (Step.bt evt) st).2 (bt_event_frame k evt st).2.2.2.1 h0
  refine ⟨?_, body_not_send_string st h0, hedge, hbt⟩
  intro h1
  cases e with
  | edge handle pressed xResult => exact absurd h1 (hedge handle pressed xResult)
  | tick => exact absurd h1 (body_not_send_string st h0)
  | bt evt => exact absurd h1 (hbt evt)
  | wait ms xResult =>
    cases htm : st.btn_press_timer with
    | none =>
      have hs : step k (Step.wait ms xResult) st = st := delay_stopped ms xResult st htm
      rw [hs] at h1
      exact absurd h1 h0
    | some r =>
      by_cases hr : r ≤ ms
      · exact ⟨ms, xResult, r, rfl, rfl, hr, delay_expiry ms xResult st r htm hr⟩
      · have hs : step k (Step.wait ms xResult) st
            = { st with btn_press_timer := some (r - ms) } :=
          delay_before_expiry ms xResult st r htm (by omega)
        rw [hs] at h1
        exact absurd h1 h0

/-- Witness of `send_string_only_from_callback`: with both bits set and 50 ms
left on the timer, the passing of 50 ms produces the send-string intent. -/
theorem send_string_only_from_callback_witness :
    ({ boot with xbtn_events := 3, is_running := true, btn_press_timer := some 50 }
      : KmState).km_status ≠ km_status_t.KM_SEND_STRING ∧
    (step sample_consts (Step.wait 50 true)
      { boot with xbtn_events := 3, is_running := true, btn_press_timer := some 50 }).km_status
      = km_status_t.KM_SEND_STRING ∧
    ∃ ms xResult r, Step.wait 50 true = Step.wait ms xResult ∧
      ({ boot with xbtn_events := 3, is_running := true, btn_press_timer := some 50 }
        : KmState).btn_press_timer = some r ∧ r ≤ ms ∧
      step sample_consts (Step.wait 50 true)
        { boot with xbtn_events := 3, is_running := true, btn_press_timer := some 50 }
        = btn_press_timer_cb xResult
            { ({ boot with xbtn_events := 3, is_running := true, btn_press_timer := some 50 }
                : KmState) with btn_press_timer := none } :=
  ⟨by decide, by decide,
   (send_string_only_from_callback sample_consts (Step.wait 50 true)
      { boot with xbtn_events := 3, is_running := true, btn_press_timer := some 50 }
      (by decide)).1 (by decide)⟩

/-! ## The reused report buffers -/

/-- C12.  What the report builders send does not depend on what the reused
buffers held before.  For any two prior contents of the mouse buffer,
`scroll_with_distance` sends the same single payload 2, 0, 0, 0, d; for any two
prior contents of the keyboard buffer, `send_keyboard` sends the same two
payloads, 1, m, 0, c, 0, 0, 0, 0, 0 and then 1, 0, 0, 0, 0, 0, 0, 0, 0.  So of
two builds in succession the second sends reports in which the modifier, the
keycode or the wheel value of the first does not occur. -/
theorem report_builders_ignore_stale_bytes (k : BtConsts) (s : KmState)
    (d d2 m c m2 c2 : Nat) (mb1 mb2 : Fin 5 → Nat) (kb1 kb2 : Fin 9 → Nat) :
    (scroll_with_distance k d { s with mouse_report_data := mb1 }).sent
      = s.sent ++ [(k.gattdb_report, [0x02, 0, 0, 0, d])] ∧
    (scroll_with_distance k d { s with mouse_report_data := mb1 }).sent
      = (scroll_with_distance k d { s with mouse_report_data := mb2 }).sent ∧
    (send_keyboard k m c { s with kb_report_data := kb1 }).sent
      = s.sent ++ [(k.gattdb_report, [0x01, m, 0, c, 0, 0, 0, 0, 0]),
                   (k.gattdb_report, [0x01, 0, 0, 0, 0, 0, 0, 0, 0])] ∧
    (send_keyboard k m c { s with kb_report_data := kb1 }).sent
      = (send_keyboard k m c { s with kb_report_data := kb2 }).sent ∧
    (scroll_with_distance k d2 (scroll_with_distance k d s)).sent
      = s.sent ++ [(k.gattdb_report, [0x02, 0, 0, 0, d]),
                   (k.gattdb_report, [0x02, 0, 0, 0, d2])] ∧
    (send_keyboard k m2 c2 (send_keyboard k m c s)).sent
      = s.sent ++ [(k.gattdb_report, [0x01, m, 0, c, 0, 0, 0, 0, 0]),
                   (k.gattdb_report, [0x01, 0, 0, 0, 0, 0, 0, 0, 0]),
                   (k.gattdb_report, [0x01, m2, 0, c2, 0, 0, 0, 0, 0]),
                   (k.gattdb_report, [0x01, 0, 0, 0, 0, 0, 0, 0, 0])] := by
  refine ⟨?_, ?_, ?_, ?_, ?_, ?_⟩
  · rw [scroll_with_distance_sent]
  · rw [scroll_with_distance_sent, scroll_with_distance_sent]
  · rw [send_keyboard_sent]
  · rw [send_keyboard_sent, send_keyboard_sent]
  · rw [scroll_with_distance_sent, scroll_with_distance_sent]
    simp
  · rw [send_keyboard_sent, send_keyboard_sent]
    simp

/-! ## Holding a single button -/

/-- The external-signal event raises no signal. -/
theorem external_signal_signals (k : BtConsts) (s : KmState) :
    (sl_bt_on_event k sl_bt_msg_t.system_external_signal s).signals = s.signals := by
  unfold sl_bt_on_event
  dsimp only
  split_ifs
  · exact (send_eetree_string_control k s).2.2.2.2.2.1
  · exact (scroll_with_distance_control k 0x01 s).2.2.2.2.2.1
  · exact (scroll_with_distance_control k 0xFF s).2.2.2.2.2.1
  · rfl

/-- One polling period with a single button read and a client subscribed: one
signal is raised and one mouse report is sent, with wheel 1 for button 0 and
wheel 255 for button 1. -/
theorem scroll_round (k : BtConsts) (s : KmState) (w : Nat)
    (hn : s.notification_enabled = 1)
    (hm : s.xbtn_events = BTN0_PRESSED ∧ w = 0x01 ∨
          s.xbtn_events = BTN1_PRESSED ∧ w = 0xFF) :
    (run k (scroll_rounds 1) s).notification_enabled = 1 ∧
    (run k (scroll_rounds 1) s).xbtn_events = s.xbtn_events ∧
    (run k (scroll_rounds 1) s).sent = s.sent ++ [(k.gattdb_report, [0x02, 0, 0, 0, w])] ∧
    (run k (scroll_rounds 1) s).signals = s.signals + 1 := by
  have hbody : ∃ v, (v = km_status_t.KM_SCROLL_UP ∧ w = 0x01 ∨
        v = km_status_t.KM_SCROLL_DOWN ∧ w = 0xFF) ∧
      km_btn_task_body s =
        { s with btn_press_timer := none, km_status := v, signals := s.signals + 1 } := by
    rcases hm with ⟨h, hw⟩ | ⟨h, hw⟩
    · exact ⟨_, Or.inl ⟨rfl, hw⟩, body_btn0 s h⟩
    · exact ⟨_, Or.inr ⟨rfl, hw⟩, body_btn1 s h⟩
  obtain ⟨v, hv, hb⟩ := hbody
  have hvi : v ≠ km_status_t.KM_IDLE := by
    rcases hv with ⟨h, _⟩ | ⟨h, _⟩ <;> rw [h] <;> decide
  have hrun : run k (scroll_rounds 1) s
      = sl_bt_on_event k sl_bt_msg_t.system_external_signal
          { s with btn_press_timer := none, km_status := v, signals := s.signals + 1 } := by
    rw [scroll_rounds, scroll_rounds, run_cons, run_cons, run_cons, run_nil]
    change delay 50 true (sl_bt_on_event k sl_bt_msg_t.system_external_signal
      (km_btn_task_body s)) = _
    rw [hb]
    apply delay_stopped
    rw [(bt_event_frame k sl_bt_msg_t.system_external_signal _).1]
  have hd := external_signal_dispatch k
    { s with btn_press_timer := none, km_status := v, signals := s.signals + 1 } hn hvi
  simp only at hd
  rw [hrun]
  refine ⟨hd.2.1.trans hn, hd.2.2.1, ?_, external_signal_signals k _⟩
  rw [hd.2.2.2]
  rcases hv with ⟨h, hw⟩ | ⟨h, hw⟩
  · subst h
    subst hw
    simp only [reduceCtorEq, if_false, if_true]
    exact scroll_with_distance_sent k 0x01 _
  · subst h
    subst hw
    simp only [reduceCtorEq, if_false]
    exact scroll_with_distance_sent k 0xFF _

theorem scroll_rounds_succ (k : BtConsts) (n : Nat) (s : KmState) :
    run k (scroll_rounds (n + 1)) s = run k (scroll_rounds n) (run k (scroll_rounds 1) s) := by
  rw [scroll_rounds, scroll_rounds, scroll_rounds]
  rfl

/-- The reports and signals of `n` polling periods with a single button read. -/
theorem scroll_rounds_sent (k : BtConsts) (w : Nat) (n : Nat) :
    ∀ s : KmState, s.notification_enabled = 1 →
      (s.xbtn_events = BTN0_PRESSED ∧ w = 0x01 ∨ s.xbtn_events = BTN1_PRESSED ∧ w = 0xFF) →
      (run k (scroll_rounds n) s).sent
        = s.sent ++ List.replicate n (k.gattdb_report, [0x02, 0, 0, 0, w]) ∧
      (run k (scroll_rounds n) s).signals = s.signals + n := by
  induction n with
  | zero =>
    intro s _ _
    exact ⟨by simp [scroll_rounds, run_nil], rfl⟩
  | succ n ih =>
    intro s hn hm
    obtain ⟨h1, h2, h3, h4⟩ := scroll_round k s w hn hm
    have ih2 := ih (run k (scroll_rounds 1) s) h1 (by rw [h2]; exact hm)
    rw [scroll_rounds_succ]
    refine ⟨?_, ?_⟩
    · rw [ih2.1, h3, List.replicate_succ]
      simp
    · rw [ih2.2, h4]
      omega

/-- C13.  A classifier pass that reads a single button sets the scroll intent
and raises the signal whatever the intent was before.  So with a client
subscribed, `n` consecutive polling periods that read the same single button,
each with its external-signal event handled, send exactly `n` mouse reports and
raise `n` signals: one report per pass, not one per change of the buttons. -/
theorem repeat_on_hold (k : BtConsts) (s : KmState) (n : Nat)
    (hn : s.notification_enabled = 1) :
    (s.xbtn_events = BTN0_PRESSED →
      (km_btn_task_body s).km_status = km_status_t.KM_SCROLL_UP ∧
      (km_btn_task_body s).signals = s.signals + 1 ∧
      (run k (scroll_rounds n) s).sent
        = s.sent ++ List.replicate n (k.gattdb_report, [0x02, 0, 0, 0, 0x01]) ∧
      (run k (scroll_rounds n) s).sent.length = s.sent.length + n ∧
      (run k (scroll_rounds n) s).signals = s.signals + n) ∧
    (s.xbtn_events = BTN1_PRESSED →
      (km_btn_task_body s).km_status = km_status_t.KM_SCROLL_DOWN ∧
      (km_btn_task_body s).signals = s.signals + 1 ∧
      (run k (scroll_rounds n) s).sent
        = s.sent ++ List.replicate n (k.gattdb_report, [0x02, 0, 0, 0, 0xFF]) ∧
      (run k (scroll_rounds n) s).sent.length = s.sent.length + n ∧
      (run k (scroll_rounds n) s).signals = s.signals + n) := by
  constructor
  · intro hm
    have h := scroll_rounds_sent k 0x01 n s hn (Or.inl ⟨hm, rfl⟩)
    refine ⟨by rw [body_btn0 s hm], by rw [body_btn0 s hm], h.1, ?_, h.2⟩
    rw [h.1]
    simp
  · intro hm
    have h := scroll_rounds_sent k 0xFF n s hn (Or.inr ⟨hm, rfl⟩)
    refine ⟨by rw [body_btn1 s hm], by rw [body_btn1 s hm], h.1, ?_, h.2⟩
    rw [h.1]
    simp

/-- Witness of `repeat_on_hold`: a subscribed state with button 0 held and a
send-string intent pending; three polling periods send three mouse reports. -/
theorem repeat_on_hold_witness :
    ({ boot with notification_enabled := 1, xbtn_events := 1,
                 km_status := km_status_t.KM_SEND_STRING } : KmState).notification_enabled
      = 1 ∧
    ({ boot with notification_enabled := 1, xbtn_events := 1,
                 km_status := km_status_t.KM_SEND_STRING } : KmState).xbtn_events
      = BTN0_PRESSED ∧
    (run sample_consts (scroll_rounds 3)
      { boot with notification_enabled := 1, xbtn_events := 1,
                  km_status := km_status_t.KM_SEND_STRING }).sent
      = [] ++ List.replicate 3 (7, [0x02, 0, 0, 0, 0x01]) :=
  ⟨rfl, by decide,
   ((repeat_on_hold sample_consts
      { boot with notification_enabled := 1, xbtn_events := 1,
                  km_status := km_status_t.KM_SEND_STRING } 3 rfl).1 (by decide)).2.2.1⟩

/-! ## Reading both buttons or none -/

/-- C14.  A classifier pass that reads both buttons with the running flag clear
arms the one-shot timer for 2000 ms and sets the flag, and does nothing else;
with the flag already set it changes nothing at all, so the timer is not
restarted.  A pass that reads no button stops the timer and clears the flag, and
does nothing else.  In all three cases the intent is unchanged and no signal is
raised. -/
theorem both_or_none_read (s : KmState) :
    (s.xbtn_events = BTN_BOTH_PRESSED → s.is_running = false →
      km_btn_task_body s =
        { s with btn_press_timer := some 2000, timer_starts := s.timer_starts + 1,
                 is_running := true }) ∧
    (s.xbtn_events = BTN_BOTH_PRESSED → s.is_running = true →
      km_btn_task_body s = s) ∧
    (s.xbtn_events = BTN_NONE_PRESSED →
      km_btn_task_body s = { s with btn_press_timer := none, is_running := false }) ∧
    (s.xbtn_events = BTN_BOTH_PRESSED ∨ s.xbtn_events = BTN_NONE_PRESSED →
      (km_btn_task_body s).km_status = s.km_status ∧
      (km_btn_task_body s).signals = s.signals) := by
  have hnone : s.xbtn_events = BTN_NONE_PRESSED →
      km_btn_task_body s = { s with btn_press_timer := none, is_running := false } := by
    intro h
    exact body_default s (by rw [h]; decide) (by rw [h]; decide) (by rw [h]; decide)
  refine ⟨?_, ?_, hnone, ?_⟩
  · intro hb hr
    rw [body_both s hb, if_neg (by rw [hr]; decide)]
  · intro hb hr
    rw [body_both s hb, if_pos hr]
  · intro h
    rcases h with hb | h0
    · rw [body_both s hb]
      split_ifs <;> exact ⟨rfl, rfl⟩
    · rw [hnone h0]
      exact ⟨rfl, rfl⟩

/-- Witness of `both_or_none_read`: both buttons read with the flag clear, both
read with the flag set and the timer running, and no button read. -/
theorem both_or_none_read_witness :
    (({ boot with xbtn_events := 3 } : KmState).xbtn_events = BTN_BOTH_PRESSED ∧
      ({ boot with xbtn_events := 3 } : KmState).is_running = false ∧
      (km_btn_task_body { boot with xbtn_events := 3 }).btn_press_timer = some 2000) ∧
    (({ boot with xbtn_events := 3, is_running := true, btn_press_timer := some 700 }
        : KmState).xbtn_events = BTN_BOTH_PRESSED ∧
      ({ boot with xbtn_events := 3, is_running := true, btn_press_timer := some 700 }
        : KmState).is_running = true ∧
      (km_btn_task_body
        { boot with xbtn_events := 3, is_running := true, btn_press_timer := some 700 }
        ).btn_press_timer = some 700) ∧
    (({ boot with is_running := true, btn_press_timer := some 700 }
        : KmState).xbtn_events = BTN_NONE_PRESSED ∧
      (km_btn_task_body
        { boot with is_running := true, btn_press_timer := some 700 }).is_running = false) :=
  ⟨⟨by decide, rfl,
    congrArg KmState.btn_press_timer
      ((both_or_none_read { boot with xbtn_events := 3 }).1 (by decide) rfl)⟩,
   ⟨by decide, rfl,
    congrArg KmState.btn_press_timer
      ((both_or_none_read
        { boot with xbtn_events := 3, is_running := true, btn_press_timer := some 700 }).2.1
        (by decide) rfl)⟩,
   ⟨by decide,
    congrArg KmState.is_running
      ((both_or_none_read
        { boot with is_running := true, btn_press_timer := some 700 }).2.2.1 (by decide))⟩⟩

/-! ## The timer callback -/

/-- C15, counterexample.  Both buttons are pressed, a classifier pass arms the
timer and 2000 ms pass; the callback runs, but its event-group call fails, which
the code only logs.  The callback has set the send-string intent and both button
bits are still set: the mask is not none. -/
theorem timer_callback_mask_cex :
    (run sample_consts
      [Step.edge sl_button_t.sl_button_btn0 true true,
       Step.edge sl_button_t.sl_button_btn1 true true,
       Step.tick, Step.wait 2000 false] boot).cb_calls = 1 ∧
    (run sample_consts
      [Step.edge sl_button_t.sl_button_btn0 true true,
       Step.edge sl_button_t.sl_button_btn1 true true,
       Step.tick, Step.wait 2000 false] boot).km_status = km_status_t.KM_SEND_STRING ∧
    (run sample_consts
      [Step.edge sl_button_t.sl_button_btn0 true true,
       Step.edge sl_button_t.sl_button_btn1 true true,
       Step.tick, Step.wait 2000 false] boot).xbtn_events = BTN_BOTH_PRESSED ∧
    (btn_press_timer_cb false { boot with xbtn_events := 3 }).xbtn_events
      ≠ BTN_NONE_PRESSED := by
  decide

/-- C15, amended.  In every state the timer callback sets the send-string
intent, raises exactly one signal and toggles each of the two LEDs exactly once,
and leaves the subscription flag, the running flag and the timer as they are.
When its event-group call passes, bits 0 and 1 are clear afterwards and no other
bit has changed, so a mask of the two button bits becomes none; when the call
fails the bits are left as they were. -/
theorem timer_callback_effect (s : KmState) :
    (∀ xResult : Bool,
      (btn_press_timer_cb xResult s).km_status = km_status_t.KM_SEND_STRING ∧
      (btn_press_timer_cb xResult s).signals = s.signals + 1 ∧
      (btn_press_timer_cb xResult s).led0_toggles = s.led0_toggles + 1 ∧
      (btn_press_timer_cb xResult s).led1_toggles = s.led1_toggles + 1 ∧
      (btn_press_timer_cb xResult s).cb_calls = s.cb_calls + 1 ∧
      (btn_press_timer_cb xResult s).notification_enabled = s.notification_enabled ∧
      (btn_press_timer_cb xResult s).is_running = s.is_running ∧
      (btn_press_timer_cb xResult s).btn_press_timer = s.btn_press_timer) ∧
    (btn_press_timer_cb true s).xbtn_events.testBit 0 = false ∧
    (btn_press_timer_cb true s).xbtn_events.testBit 1 = false ∧
    (∀ i, 2 ≤ i →
      (btn_press_timer_cb true s).xbtn_events.testBit i = s.xbtn_events.testBit i) ∧
    (s.xbtn_events < 4 → (btn_press_timer_cb true s).xbtn_events = BTN_NONE_PRESSED) ∧
    (btn_press_timer_cb false s).xbtn_events = s.xbtn_events := by
  have hbit : ∀ i, (btn_press_timer_cb true s).xbtn_events.testBit i
      = (s.xbtn_events.testBit i && !(Nat.testBit 3 i)) := by
    intro i
    change (xEventGroupClearBits s.xbtn_events BTN_BOTH_PRESSED).testBit i = _
    rw [BTN_BOTH_PRESSED_eq]
    simp only [xEventGroupClearBits, Nat.testBit_xor, Nat.testBit_and]
    cases s.xbtn_events.testBit i <;> cases Nat.testBit 3 i <;> rfl
  have h3 : ∀ i, 2 ≤ i → Nat.testBit 3 i = false := by
    intro i hi
    apply Nat.testBit_lt_two_pow
    calc 3 < 2 ^ 2 := by decide
      _ ≤ 2 ^ i := Nat.pow_le_pow_right (by decide) hi
  refine ⟨?_, ?_, ?_, ?_, ?_, rfl⟩
  · intro xResult
    cases xResult <;> exact ⟨rfl, rfl, rfl, rfl, rfl, rfl, rfl, rfl⟩
  · rw [hbit 0]
    have : Nat.testBit 3 0 = true := by decide
    rw [this]
    simp
  · rw [hbit 1]
    have : Nat.testBit 3 1 = true := by decide
    rw [this]
    simp
  · intro i hi
    rw [hbit i, h3 i hi]
    simp
  · intro hlt
    apply Nat.eq_of_testBit_eq
    intro i
    rw [hbit i]
    by_cases hi : 2 ≤ i
    · have hs : s.xbtn_events.testBit i = false := by
        apply Nat.testBit_lt_two_pow
        calc s.xbtn_events < 2 ^ 2 := hlt
          _ ≤ 2 ^ i := Nat.pow_le_pow_right (by decide) hi
      rw [hs]
      simp [BTN_NONE_PRESSED]
    · have h01 : i = 0 ∨ i = 1 := by omega
      have h30 : Nat.testBit 3 0 = true := by decide
      have h31 : Nat.testBit 3 1 = true := by decide
      rcases h01 with h | h
      · subst h
        rw [h30]
        simp [BTN_NONE_PRESSED]
      · subst h
        rw [h31]
        simp [BTN_NONE_PRESSED]

/-- Witness of `timer_callback_effect`: the callback in a state with both button
bits set and a scroll-up intent pending. -/
theorem timer_callback_effect_witness :
    ({ boot with xbtn_events := 3, km_status := km_status_t.KM_SCROLL_UP }
      : KmState).xbtn_events < 4 ∧
    (btn_press_timer_cb true
      { boot with xbtn_events := 3, km_status := km_status_t.KM_SCROLL_UP }).xbtn_events
      = BTN_NONE_PRESSED ∧
    (btn_press_timer_cb true
      { boot with xbtn_events := 3, km_status := km_status_t.KM_SCROLL_UP }).km_status
      = km_status_t.KM_SEND_STRING :=
  ⟨by decide,
   (timer_callback_effect
      { boot with xbtn_events := 3, km_status := km_status_t.KM_SCROLL_UP }).2.2.2.2.1
      (by decide),
   ((timer_callback_effect
      { boot with xbtn_events := 3, km_status := km_status_t.KM_SCROLL_UP }).1 true).1⟩

/-! ## The key-up report -/

/-- C16, counterexample.  In the send-string dispatch from the boot state with a
client subscribed, the second notification is the key-up report of the first
keystroke; its first byte is the report id 1, so it is not nine zero bytes. -/
theorem key_up_all_zero_cex :
    (sl_bt_on_event sample_consts sl_bt_msg_t.system_external_signal
      { boot with notification_enabled := 1, km_status := km_status_t.KM_SEND_STRING }
      ).sent[1]? = some (7, [0x01, 0, 0, 0, 0, 0, 0, 0, 0]) ∧
    (sl_bt_on_event sample_consts sl_bt_msg_t.system_external_signal
      { boot with notification_enabled := 1, km_status := km_status_t.KM_SEND_STRING }
      ).sent[1]? ≠ some (7, [0, 0, 0, 0, 0, 0, 0, 0, 0]) := by
  decide

/-- C16, amended.  In the send-string dispatch the eighteen notifications sent
are such that each key-up report, the one at an odd position, is the nine bytes
1, 0, 0, 0, 0, 0, 0, 0, 0: the first byte is the keyboard report id and every
other byte is zero. -/
theorem key_up_report_bytes (k : BtConsts) (s : KmState)
    (hn : s.notification_enabled = 1)
    (hi : s.km_status = km_status_t.KM_SEND_STRING) :
    ∃ l : List (Nat × List Nat),
      (sl_bt_on_event k sl_bt_msg_t.system_external_signal s).sent = s.sent ++ l ∧
      l.length = 18 ∧
      ∀ i, i < 9 →
        l[2 * i + 1]? = some (k.gattdb_report, [KB_REPORT_ID, 0, 0, 0, 0, 0, 0, 0, 0]) := by
  have hd := (external_signal_dispatch k s hn (by rw [hi]; decide)).2.2.2
  simp only at hd
  rw [hd, if_pos hi, send_eetree_string_sent]
  refine ⟨_, rfl, rfl, ?_⟩
  intro i hi9
  interval_cases i <;> rfl

/-- Witness of `key_up_report_bytes`: a subscribed state with the send-string
intent pending. -/
theorem key_up_report_bytes_witness :
    ({ boot with notification_enabled := 1, km_status := km_status_t.KM_SEND_STRING }
      : KmState).notification_enabled = 1 ∧
    ({ boot with notification_enabled := 1, km_status := km_status_t.KM_SEND_STRING }
      : KmState).km_status = km_status_t.KM_SEND_STRING ∧
    ∃ l : List (Nat × List Nat),
      (sl_bt_on_event sample_consts sl_bt_msg_t.system_external_signal
        { boot with notification_enabled := 1, km_status := km_status_t.KM_SEND_STRING }
        ).sent
        = ({ boot with notification_enabled := 1, km_status := km_status_t.KM_SEND_STRING }
            : KmState).sent ++ l ∧
      l.length = 18 ∧
      ∀ i, i < 9 →
        l[2 * i + 1]?
          = some (sample_consts.gattdb_report, [KB_REPORT_ID, 0, 0, 0, 0, 0, 0, 0, 0]) :=
  ⟨rfl, rfl,
   key_up_report_bytes sample_consts
     { boot with notification_enabled := 1, km_status := km_status_t.KM_SEND_STRING }
     rfl rfl⟩

/-! ## The subscription flag -/

/-- A step that is not a Bluetooth event writes neither the subscription flag
nor the notification log. -/
theorem task_step_frame (k : BtConsts) (e : Step) (s : KmState)
    (he : ∀ evt, e ≠ Step.bt evt) :
    (step k e s).notification_enabled = s.notification_enabled ∧
    (step k e s).sent = s.sent := by
  cases e with
  | edge handle pressed xResult =>
    change (sl_button_on_change handle pressed xResult s).notification_enabled
        = s.notification_enabled ∧
      (sl_button_on_change handle pressed xResult s).sent = s.sent
    unfold sl_button_on_change
    dsimp only
    split_ifs <;> exact ⟨rfl, rfl⟩
  | tick =>
    change (km_btn_task_body s).notification_enabled = s.notification_enabled ∧
      (km_btn_task_body s).sent = s.sent
    unfold km_btn_task_body
    dsimp only
    split_ifs <;> exact ⟨rfl, rfl⟩
  | wait ms xResult =>
    change (delay ms xResult s).notification_enabled = s.notification_enabled ∧
      (delay ms xResult s).sent = s.sent
    cases htm : s.btn_press_timer with
    | none => rw [delay_stopped ms xResult s htm]; exact ⟨rfl, rfl⟩
    | some r =>
      by_cases hr : r ≤ ms
      · rw [delay_expiry ms xResult s r htm hr]
        cases xResult <;> exact ⟨rfl, rfl⟩
      · rw [delay_before_expiry ms xResult s r htm (by omega)]
        exact ⟨rfl, rfl⟩
  | bt evt => exact absurd rfl (he evt)

/-- The flag after a characteristic-status event. -/
theorem characteristic_status_flag (k : BtConsts) (c f v : Nat) (s : KmState) :
    (sl_bt_on_event k (sl_bt_msg_t.gatt_server_characteristic_status c f v) s
      ).notification_enabled
      = if c = k.gattdb_report ∧ f = k.sl_bt_gatt_server_client_config then
          (if v = k.sl_bt_gatt_notification then 1 else 0)
        else s.notification_enabled := by
  unfold sl_bt_on_event
  dsimp only
  by_cases hc : c = k.gattdb_report
  · by_cases hf : f = k.sl_bt_gatt_server_client_config
    · by_cases hv : v = k.sl_bt_gatt_notification
      · simp [hc, hf, hv]
      · rw [if_pos hc, if_pos hf, if_neg hv, if_pos ⟨hc, hf⟩, if_neg hv]
    · rw [if_pos hc, if_neg hf, if_neg (fun h => hf h.2)]
  · rw [if_neg hc, if_neg (fun h => hc h.1)]

/-- A characteristic-status event sends nothing. -/
theorem characteristic_status_sent (k : BtConsts) (c f v : Nat) (s : KmState) :
    (sl_bt_on_event k (sl_bt_msg_t.gatt_server_characteristic_status c f v) s).sent
      = s.sent := by
  unfold sl_bt_on_event
  dsimp only
  split_ifs <;> rfl

/-- With the flag at zero, a step that is not a subscription leaves the flag at
zero and sends nothing. -/
theorem step_unsubscribed (k : BtConsts) (e : Step) (s : KmState)
    (h0 : s.notification_enabled = 0) (he : enables_notification k e = false) :
    (step k e s).notification_enabled = 0 ∧ (step k e s).sent = s.sent := by
  cases e with
  | edge handle pressed xResult =>
    have h := task_step_frame k (Step.edge handle pressed xResult) s (by intro evt; simp)
    exact ⟨h.1.trans h0, h.2⟩
  | tick =>
    have h := task_step_frame k Step.tick s (by intro evt; simp)
    exact ⟨h.1.trans h0, h.2⟩
  | wait ms xResult =>
    have h := task_step_frame k (Step.wait ms xResult) s (by intro evt; simp)
    exact ⟨h.1.trans h0, h.2⟩
  | bt evt =>
    change (sl_bt_on_event k evt s).notification_enabled = 0 ∧
      (sl_bt_on_event k evt s).sent = s.sent
    cases evt with
    | system_boot => exact ⟨h0, rfl⟩
    | connection_opened => exact ⟨h0, rfl⟩
    | connection_closed => exact ⟨rfl, rfl⟩
    | sm_bonded => exact ⟨h0, rfl⟩
    | sm_bonding_failed => exact ⟨h0, rfl⟩
    | other_event => exact ⟨h0, rfl⟩
    | system_external_signal =>
      rw [external_signal_skip k s (Or.inl (by rw [h0]; decide))]
      exact ⟨h0, rfl⟩
    | gatt_server_characteristic_status c f v =>
      refine ⟨?_, characteristic_status_sent k c f v s⟩
      rw [characteristic_status_flag]
      have hne : ¬ (c = k.gattdb_report ∧ f = k.sl_bt_gatt_server_client_config ∧
          v = k.sl_bt_gatt_notification) := by
        simpa [enables_notification] using he
      by_cases hcf : c = k.gattdb_report ∧ f = k.sl_bt_gatt_server_client_config
      · rw [if_pos hcf, if_neg (fun hv => hne ⟨hcf.1, hcf.2, hv⟩)]
      · rw [if_neg hcf]
        exact h0

/-- With the flag at zero, a run without a subscription sends nothing. -/
theorem run_unsubscribed (k : BtConsts) (tr : List Step) :
    ∀ s : KmState, s.notification_enabled = 0 →
      (∀ e ∈ tr, enables_notification k e = false) →
      (run k tr s).notification_enabled = 0 ∧ (run k tr s).sent = s.sent := by
  induction tr with
  | nil => intro s h0 _; exact ⟨h0, rfl⟩
  | cons e tr ih =>
    intro s h0 he
    rw [run_cons]
    have h1 := step_unsubscribed k e s h0 (he e (List.mem_cons_self e tr))
    have h2 := ih (step k e s) h1.1 (fun e2 h => he e2 (List.mem_cons_of_mem e h))
    exact ⟨h2.1, h2.2.trans h1.2⟩

/-- C17.  A characteristic-status event for the report characteristic with the
client-config status flag sets the subscription flag to 1 when the client
config value is the notification value and to 0 for every other value; a status
event for another characteristic or with another status flag leaves the flag as
it is; the connection-closed event sets it to 0; no other Bluetooth event and no
other step changes it.  Hence after a connection-closed event, a run in which no
client enables notifications keeps the flag at 0 and sends no report. -/
theorem subscription_flag_updates (k : BtConsts) (s : KmState) :
    (∀ c f v, c = k.gattdb_report → f = k.sl_bt_gatt_server_client_config →
      v = k.sl_bt_gatt_notification →
      (sl_bt_on_event k (sl_bt_msg_t.gatt_server_characteristic_status c f v) s
        ).notification_enabled = 1) ∧
    (∀ c f v, c = k.gattdb_report → f = k.sl_bt_gatt_server_client_config →
      v ≠ k.sl_bt_gatt_notification →
      (sl_bt_on_event k (sl_bt_msg_t.gatt_server_characteristic_status c f v) s
        ).notification_enabled = 0) ∧
    (∀ c f v, c ≠ k.gattdb_report ∨ f ≠ k.sl_bt_gatt_server_client_config →
      (sl_bt_on_event k (sl_bt_msg_t.gatt_server_characteristic_status c f v) s
        ).notification_enabled = s.notification_enabled) ∧
    (sl_bt_on_event k sl_bt_msg_t.connection_closed s).notification_enabled = 0 ∧
    (∀ evt, (∀ c f v, evt ≠ sl_bt_msg_t.gatt_server_characteristic_status c f v) →
      evt ≠ sl_bt_msg_t.connection_closed →
      (sl_bt_on_event k evt s).notification_enabled = s.notification_enabled) ∧
    (∀ e, (∀ evt, e ≠ Step.bt evt) →
      (step k e s).notification_enabled = s.notification_enabled) ∧
    (∀ tr, (∀ e ∈ tr, enables_notification k e = false) →
      (run k tr (sl_bt_on_event k sl_bt_msg_t.connection_closed s)).notification_enabled = 0 ∧
      (run k tr (sl_bt_on_event k sl_bt_msg_t.connection_closed s)).sent = s.sent) := by
  refine ⟨?_, ?_, ?_, rfl, ?_, ?_, ?_⟩
  · intro c f v hc hf hv
    rw [characteristic_status_flag, if_pos ⟨hc, hf⟩, if_pos hv]
  · intro c f v hc hf hv
    rw [characteristic_status_flag, if_pos ⟨hc, hf⟩, if_neg hv]
  · intro c f v h
    rw [characteristic_status_flag, if_neg]
    intro hcf
    rcases h with h | h
    · exact h hcf.1
    · exact h hcf.2
  · intro evt hs hcl
    cases evt with
    | system_boot => rfl
    | connection_opened => rfl
    | connection_closed => exact absurd rfl hcl
    | sm_bonded => rfl
    | sm_bonding_failed => rfl
    | other_event => rfl
    | gatt_server_characteristic_status c f v => exact absurd rfl (hs c f v)
    | system_external_signal =>
      by_cases h : s.notification_enabled = 1 ∧ s.km_status ≠ km_status_t.KM_IDLE
      · exact (external_signal_dispatch k s h.1 h.2).2.1
      · rw [external_signal_skip k s (by
          by_cases hn : s.notification_enabled = 1
          · right
            by_contra hi
            exact h ⟨hn, hi⟩
          · left
            exact hn)]
  · intro e he
    exact (task_step_frame k e s he).1
  · intro tr htr
    exact run_unsubscribed k tr (sl_bt_on_event k sl_bt_msg_t.connection_closed s) rfl htr

/-- Witness of `subscription_flag_updates`: subscribing sets the flag; the value
3, notification together with indication, clears it; and after the connection
is closed a pending scroll intent is not sent by the external-signal event. -/
theorem subscription_flag_updates_witness :
    (sl_bt_on_event sample_consts
      (sl_bt_msg_t.gatt_server_characteristic_status 7 1 1) boot).notification_enabled = 1 ∧
    (sl_bt_on_event sample_consts
      (sl_bt_msg_t.gatt_server_characteristic_status 7 1 3)
      { boot with notification_enabled := 1 }).notification_enabled = 0 ∧
    (sl_bt_on_event sample_consts
      (sl_bt_msg_t.gatt_server_characteristic_status 8 1 1)
      { boot with notification_enabled := 1 }).notification_enabled = 1 ∧
    (run sample_consts [Step.tick, Step.bt sl_bt_msg_t.system_external_signal]
      (sl_bt_on_event sample_consts sl_bt_msg_t.connection_closed
        { boot with notification_enabled := 1, xbtn_events := 1 })).sent = [] :=
  ⟨(subscription_flag_updates sample_consts boot).1 7 1 1 rfl rfl rfl,
   (subscription_flag_updates sample_consts
      { boot with notification_enabled := 1 }).2.1 7 1 3 rfl rfl (by decide),
   (subscription_flag_updates sample_consts
      { boot with notification_enabled := 1 }).2.2.1 8 1 1 (Or.inl (by decide)),
   ((subscription_flag_updates sample_consts
      { boot with notification_enabled := 1, xbtn_events := 1 }).2.2.2.2.2.2
      [Step.tick, Step.bt sl_bt_msg_t.system_external_signal] (by decide)).2⟩

/-! ## The running flag -/

/-- With the running flag set and the timer stopped, a step that is not a pass
reading no button leaves both as they are, starts no timer and runs no
callback. -/
theorem step_stale_flag (k : BtConsts) (e : Step) (st : KmState)
    (hr : st.is_running = true) (ht : st.btn_press_timer = none)
    (he : reads_button e st = true) :
    (step k e st).is_running = true ∧ (step k e st).btn_press_timer = none ∧
    (step k e st).timer_starts = st.timer_starts ∧
    (step k e st).cb_calls = st.cb_calls := by
  cases e with
  | edge handle pressed xResult =>
    have hf := on_change_frame handle pressed xResult st
    exact ⟨hf.2.1.trans hr, hf.1.trans ht, hf.2.2.1, hf.2.2.2.1⟩
  | tick =>
    change (km_btn_task_body st).is_running = true ∧
      (km_btn_task_body st).btn_press_timer = none ∧
      (km_btn_task_body st).timer_starts = st.timer_starts ∧
      (km_btn_task_body st).cb_calls = st.cb_calls
    have hm : st.xbtn_events = BTN_BOTH_PRESSED ∨ st.xbtn_events = BTN0_PRESSED ∨
        st.xbtn_events = BTN1_PRESSED := by
      simpa [reads_button] using he
    rcases hm with h | h | h
    · rw [body_both st h, if_pos hr]
      exact ⟨hr, ht, rfl, rfl⟩
    · rw [body_btn0 st h]
      exact ⟨hr, rfl, rfl, rfl⟩
    · rw [body_btn1 st h]
      exact ⟨hr, rfl, rfl, rfl⟩
  | wait ms xResult =>
    have hs : step k (Step.wait ms xResult) st = st := delay_stopped ms xResult st ht
    rw [hs]
    exact ⟨hr, ht, rfl, rfl⟩
  | bt evt =>
    have hf := bt_event_frame k evt st
    exact ⟨hf.2.1.trans hr, hf.1.trans ht, hf.2.2.1, hf.2.2.2.1⟩

/-- With the running flag set and the timer stopped, a run in which no pass
reads no button starts no timer and runs no callback. -/
theorem run_stale_flag (k : BtConsts) (tr : List Step) :
    ∀ st : KmState, st.is_running = true → st.btn_press_timer = none →
      no_none_read k tr st = true →
      (run k tr st).is_running = true ∧ (run k tr st).btn_press_timer = none ∧
      (run k tr st).timer_starts = st.timer_starts ∧
      (run k tr st).cb_calls = st.cb_calls := by
  induction tr with
  | nil => intro st hr ht _; exact ⟨hr, ht, rfl, rfl⟩
  | cons e tr ih =>
    intro st hr ht hno
    rw [no_none_read, Bool.and_eq_true] at hno
    rw [run_cons]
    have h1 := step_stale_flag k e st hr ht hno.1
    have h2 := ih (step k e st) h1.1 h1.2.1 hno.2
    exact ⟨h2.1, h2.2.1, h2.2.2.1.trans h1.2.2.1, h2.2.2.2.trans h1.2.2.2⟩

/-- C18.  A classifier pass that reads a single button stops the timer and
leaves the running flag as it is.  So when the flag is set, as it is after an
arming, then after that pass, in any run in which every pass reads at least one
button, however many of them read both buttons again, the timer is not started,
the callback does not run and the intent is not send-string.  Only a pass that
reads no button clears the flag. -/
theorem stale_flag_blocks_rearm (k : BtConsts) (s : KmState) (tr : List Step)
    (hs : s.xbtn_events = BTN0_PRESSED ∨ s.xbtn_events = BTN1_PRESSED) :
    (km_btn_task_body s).btn_press_timer = none ∧
    (km_btn_task_body s).is_running = s.is_running ∧
    (s.is_running = true → no_none_read k tr (km_btn_task_body s) = true →
      (run k tr (km_btn_task_body s)).timer_starts = s.timer_starts ∧
      (run k tr (km_btn_task_body s)).cb_calls = s.cb_calls ∧
      (run k tr (km_btn_task_body s)).btn_press_timer = none ∧
      (run k tr (km_btn_task_body s)).is_running = true ∧
      (run k tr (km_btn_task_body s)).km_status ≠ km_status_t.KM_SEND_STRING) ∧
    (∀ st : KmState, st.xbtn_events = BTN_NONE_PRESSED →
      (km_btn_task_body st).is_running = false) := by
  have hb : (km_btn_task_body s).btn_press_timer = none ∧
      (km_btn_task_body s).is_running = s.is_running ∧
      (km_btn_task_body s).timer_starts = s.timer_starts ∧
      (km_btn_task_body s).cb_calls = s.cb_calls ∧
      (km_btn_task_body s).km_status ≠ km_status_t.KM_SEND_STRING := by
    rcases hs with h | h
    · rw [body_btn0 s h]
      exact ⟨rfl, rfl, rfl, rfl, by simp⟩
    · rw [body_btn1 s h]
      exact ⟨rfl, rfl, rfl, rfl, by simp⟩
  refine ⟨hb.1, hb.2.1, ?_, ?_⟩
  · intro hr hno
    have h := run_stale_flag k tr (km_btn_task_body s) (hb.2.1.trans hr) hb.1 hno
    refine ⟨h.2.2.1.trans hb.2.2.1, h.2.2.2.trans hb.2.2.2.1, h.2.1, h.1, ?_⟩
    exact (run_send_string k tr (km_btn_task_body s)).2 h.2.2.2 hb.2.2.2.2
  · intro st h0
    rw [body_default st (by rw [h0]; decide) (by rw [h0]; decide) (by rw [h0]; decide)]

/-- Witness of `stale_flag_blocks_rearm`: both buttons were pressed and the timer
armed, then button 1 was released; the pass reads button 0 only, button 1 is
pressed again and five passes read both buttons. -/
theorem stale_flag_blocks_rearm_witness :
    (run sample_consts
      [Step.edge sl_button_t.sl_button_btn0 true true,
       Step.edge sl_button_t.sl_button_btn1 true true,
       Step.tick, Step.wait 50 true,
       Step.edge sl_button_t.sl_button_btn1 false true] boot).xbtn_events = BTN0_PRESSED ∧
    (run sample_consts
      [Step.edge sl_button_t.sl_button_btn0 true true,
       Step.edge sl_button_t.sl_button_btn1 true true,
       Step.tick, Step.wait 50 true,
       Step.edge sl_button_t.sl_button_btn1 false true] boot).is_running = true ∧
    no_none_read sample_consts
      (Step.wait 50 true :: Step.edge sl_button_t.sl_button_btn1 true true :: hold_ticks 5)
      (km_btn_task_body (run sample_consts
        [Step.edge sl_button_t.sl_button_btn0 true true,
         Step.edge sl_button_t.sl_button_btn1 true true,
         Step.tick, Step.wait 50 true,
         Step.edge sl_button_t.sl_button_btn1 false true] boot)) = true ∧
    (run sample_consts
      (Step.wait 50 true :: Step.edge sl_button_t.sl_button_btn1 true true :: hold_ticks 5)
      (km_btn_task_body (run sample_consts
        [Step.edge sl_button_t.sl_button_btn0 true true,
         Step.edge sl_button_t.sl_button_btn1 true true,
         Step.tick, Step.wait 50 true,
         Step.edge sl_button_t.sl_button_btn1 false true] boot))).cb_calls = 0 :=
  ⟨by decide, by decide, by decide,
   ((stale_flag_blocks_rearm sample_consts
      (run sample_consts
        [Step.edge sl_button_t.sl_button_btn0 true true,
         Step.edge sl_button_t.sl_button_btn1 true true,
         Step.tick, Step.wait 50 true,
         Step.edge sl_button_t.sl_button_btn1 false true] boot)
      (Step.wait 50 true :: Step.edge sl_button_t.sl_button_btn1 true true :: hold_ticks 5)
      (Or.inl (by decide))).2.2.1 (by decide) (by decide)).2.1⟩

/-! ## Armed implies running -/

end KeyMouse
